import Mathlib

/-!
# carla::road::MapBuilder — a shallow embedding

The road graph that `MapBuilder` (LibCarla/source/carla/road/MapBuilder.cpp)
assembles is embedded as plain values: the builder's `_map_data` member is threaded
through every operation as an explicit state, a write through a pointer into a
container becomes an update of the entry the pointer designates, and an operation
that dereferences a null pointer or throws returns an error value.

Numbers: `uint32_t` identifiers are natural numbers and `int32_t` identifiers are
integers (no arithmetic is done on them); `double`/`float` quantities are rational
numbers, of which only equality and order are used (a NaN offset is outside the model).
-/

namespace carla.road

/-! ## Standard containers -/

namespace Assoc

variable {K V : Type}

/-- The value of the first entry with key `k` (`find` of `std::map`). -/
def find [DecidableEq K] (k : K) : List (K × V) → Option V
  | [] => none
  | (k1, v) :: rest => if k1 = k then some v else find k rest

/-- Insertion at the upper bound of `k`: before the first entry whose key is greater
than `k`, hence after every entry with an equal key (`emplace` of `std::multimap`). -/
def insertOrdered [LT K] [DecidableRel (fun a b : K => a < b)] (k : K) (v : V) :
    List (K × V) → List (K × V)
  | [] => [(k, v)]
  | (k1, v1) :: rest =>
      if k < k1 then (k, v) :: (k1, v1) :: rest else (k1, v1) :: insertOrdered k v rest

/-- The `emplace` of `std::map`: nothing is inserted when the key is present. -/
def emplace [DecidableEq K] [LT K] [DecidableRel (fun a b : K => a < b)] (k : K) (v : V)
    (m : List (K × V)) : List (K × V) :=
  match find k m with
  | some _ => m
  | none => insertOrdered k v m

/-- A write through the pointer to the entry with key `k`. -/
def modify [DecidableEq K] (k : K) (f : V → V) : List (K × V) → List (K × V)
  | [] => []
  | (k1, v) :: rest => if k1 = k then (k1, f v) :: rest else (k1, v) :: modify k f rest

/-- A write through an iterator advanced `n` steps from `begin()`. -/
def modifyAt (n : Nat) (f : V → V) : List (K × V) → List (K × V)
  | [] => []
  | (k1, v) :: rest =>
      match n with
      | 0 => (k1, f v) :: rest
      | n + 1 => (k1, v) :: modifyAt n f rest

end Assoc

/-! ## Data model -/

/-- Modelled from the spec: `geom::CubicPolynomial` is declared outside
MapBuilder.cpp; it is an opaque value carrying its start offset `s` (read by `GetS`) and four
coefficients. -/
structure CubicPolynomial where
  _s : Rat
  _a : Rat
  _b : Rat
  _c : Rat
  _d : Rat
deriving DecidableEq, Repr

/-- Start offset of the curve. -/
def CubicPolynomial.GetS (cubic : CubicPolynomial) : Rat := cubic._s

/-- A default-constructed polynomial. -/
def CubicPolynomial.new : CubicPolynomial := ⟨0, 0, 0, 0, 0⟩

/-- The content of a `Lane *` slot: either an integer that was `reinterpret_cast` to a
pointer (the integer 0 gives the null pointer), or the address of a `Lane` object of
the graph, named by its road, the position of its section in the road and its id. -/
inductive LanePtr where
  | fromId (raw : Int)
  | toLane (road_id : Nat) (section_index : Nat) (lane_id : Int)
deriving DecidableEq, Repr

/-- The null pointer. -/
def LanePtr.null : LanePtr := LanePtr.fromId 0

/-- The members of `Lane` that `MapBuilder` writes (`_lane_section`, the pointer back
to the owning section, is the position of the lane in the graph). -/
structure Lane where
  _id : Int
  _type : String
  _level : Bool
  _next_lanes : List LanePtr
  _prev_lanes : List LanePtr
deriving DecidableEq, Repr

/-- A default-constructed lane, `Lane()`. -/
def Lane.new : Lane := ⟨0, "", false, [], []⟩

/-- The members of `LaneSection` that `MapBuilder` writes (`_road`, the pointer back to
the owning road, is the position of the section in the graph). `_lanes` is a
`std::map` keyed by lane id. -/
structure LaneSection where
  _s : Rat
  _lane_offset : CubicPolynomial
  _lanes : List (Int × Lane)
deriving DecidableEq, Repr

/-- A default-constructed section, `LaneSection()`. -/
def LaneSection.new : LaneSection := ⟨0, CubicPolynomial.new, []⟩

/-- A validity range, `general::Validity(signal_id, from_lane, to_lane)`. -/
structure Validity where
  _signal_id : Nat
  _from_lane : Int
  _to_lane : Int
deriving DecidableEq, Repr

/-- The arguments of the `signal::Signal` constructor and the validity ranges added
afterwards. -/
structure Signal where
  _road_id : Nat
  _signal_id : Nat
  _s : Rat
  _t : Rat
  _name : String
  _dynamic : String
  _orientation : String
  _zOffset : Rat
  _country : String
  _type : String
  _subtype : String
  _value : Rat
  _unit : String
  _height : Rat
  _width : Rat
  _text : String
  _hOffset : Rat
  _pitch : Rat
  _roll : Rat
  _validities : List Validity
deriving DecidableEq, Repr

/-- The members of `Road` that `MapBuilder` writes (`_map_data`, the pointer back to
the graph, is the position of the road in the graph). `_lane_sections` is a
`std::multimap` keyed by start offset; `_nexts` and `_prevs` hold road identifiers. -/
structure Road where
  _id : Nat
  _name : String
  _length : Rat
  _junction_id : Int
  _is_junction : Bool
  _nexts : List Int
  _prevs : List Int
  _lane_sections : List (Rat × LaneSection)
  _signals : List (Nat × Signal)
deriving DecidableEq, Repr

/-- A default-constructed road, `Road()`. -/
def Road.new : Road := ⟨0, "", 0, -1, false, [], [], [], []⟩

/-- A connection of a junction, `Junction::Connection(id, incoming, connecting)`, with
its lane links. -/
structure Connection where
  _id : Int
  _incoming_road : Int
  _connecting_road : Int
  _lane_links : List (Int × Int)
deriving DecidableEq, Repr

/-- A junction, `Junction(id, name)`, with its connections. -/
structure Junction where
  _id : Int
  _name : String
  _connections : List (Int × Connection)
deriving DecidableEq, Repr

/-- The road graph owned by the builder (`MapBuilder::_map_data`). -/
structure MapData where
  _roads : List (Nat × Road)
  _junctions : List (Int × Junction)
deriving DecidableEq, Repr

/-- The graph of a freshly constructed builder. -/
def MapData.empty : MapData := ⟨[], []⟩

/-- The frozen output, `Map{std::move(_map_data)}`. -/
structure Map where
  _data : MapData
deriving DecidableEq, Repr

/-- Modelled from the spec: `MapData::GetRoad` is defined outside MapBuilder.cpp;
it looks a road up by id and yields the null pointer (here `none`) when the id is
unknown, which is what the callers test for. -/
def MapData.GetRoad (g : MapData) (road_id : Nat) : Option Road :=
  Assoc.find road_id g._roads

/-- Modelled from the spec: `MapData::GetJunction` is defined outside
MapBuilder.cpp; it looks a junction up by id and yields the null pointer (here `none`) when
the id is unknown. -/
def MapData.GetJunction (g : MapData) (junction_id : Int) : Option Junction :=
  Assoc.find junction_id g._junctions

/-- Modelled from the spec: `Junction::GetConnection` is defined outside
MapBuilder.cpp; it looks a connection up by id and yields the null pointer (here `none`) when
the id is unknown. -/
def Junction.GetConnection (j : Junction) (connection_id : Int) : Option Connection :=
  Assoc.find connection_id j._connections

/-- Modelled from the spec: `Junction::Connection::AddLaneLink` is defined outside
MapBuilder.cpp; the pair is appended to the ordered sequence of lane links. -/
def Connection.AddLaneLink (c : Connection) (from_lane to_lane : Int) : Connection :=
  { c with _lane_links := c._lane_links ++ [(from_lane, to_lane)] }

/-- Modelled from the spec: `signal::Signal::AddValidity` is defined outside
MapBuilder.cpp; the validity range is appended to the signal. -/
def Signal.AddValidity (sig : Signal) (v : Validity) : Signal :=
  { sig with _validities := sig._validities ++ [v] }

/-- Ways in which a call can fail to return normally. -/
inductive Fault where
  | nullDereference
  | missingSignal
  | runtimeError (what : String)
  | pastTheEnd
deriving DecidableEq, Repr

/-- The lane-change kinds of a road mark, `RoadInfoMarkRecord::LaneChange`. -/
inductive LaneChange where
  | Increase
  | Decrease
  | Both
  | None
deriving DecidableEq, Repr

/-- The attribute values of `carla::road::element`, each a record of its constructor
arguments. -/
inductive RoadInfo where
  | RoadElevationInfo (s a b c d : Rat)
  | RoadInfoLaneAccess (s : Rat) (restriction : String)
  | RoadInfoLaneBorder (s a b c d : Rat)
  | RoadInfoLaneHeight (s inner outer : Rat)
  | RoadInfoLaneMaterial (s : Rat) (surface : String) (friction roughness : Rat)
  | RoadInfoLaneOffset (s a b c d : Rat)
  | RoadInfoLaneRule (s : Rat) (value : String)
  | RoadInfoLaneVisibility (s forward back left right : Rat)
  | RoadInfoLaneWidth (s a b c d : Rat)
  | RoadInfoMarkRecord (s : Rat) (road_mark_id : Int) (type weight color material : String)
      (width : Rat) (lane_change : LaneChange) (height : Rat) (type_name : String)
      (type_width : Rat)
  | RoadInfoMarkTypeLine (s : Rat) (road_mark_id : Int) (length space tOffset : Rat)
      (rule : String) (width : Rat)
  | RoadInfoVelocity (s max : Rat)
deriving DecidableEq, Repr

/-! ## Ingestion operations of `MapBuilder` -/

namespace MapBuilder

/-- The free function `AddRoadElevationProfile`: the value is built and destroyed at the
end of the body. -/
def AddRoadElevationProfile (g : MapData) (_road_id : Int) (s a b c d : Rat) : MapData :=
  let _elevation := RoadInfo.RoadElevationInfo s a b c d
  g

/-- `MapBuilder::CreateLaneAccess`. -/
def CreateLaneAccess (g : MapData) (_road_id _lane_section_id _lane_id : Int) (s : Rat)
    (restriction : String) : MapData :=
  let _access := RoadInfo.RoadInfoLaneAccess s restriction
  g

/-- `MapBuilder::CreateLaneBorder`. -/
def CreateLaneBorder (g : MapData) (_road_id _lane_section_id _lane_id : Int)
    (s a b c d : Rat) : MapData :=
  let _border := RoadInfo.RoadInfoLaneBorder s a b c d
  g

/-- `MapBuilder::CreateLaneHeight`. -/
def CreateLaneHeight (g : MapData) (_road_id _lane_section_id _lane_id : Int)
    (s inner outer : Rat) : MapData :=
  let _height := RoadInfo.RoadInfoLaneHeight s inner outer
  g

/-- `MapBuilder::CreateLaneMaterial`. -/
def CreateLaneMaterial (g : MapData) (_road_id _lane_section_id _lane_id : Int) (s : Rat)
    (surface : String) (friction roughness : Rat) : MapData :=
  let _material := RoadInfo.RoadInfoLaneMaterial s surface friction roughness
  g

/-- `MapBuilder::CreateLaneOffset`. -/
def CreateLaneOffset (g : MapData) (_road_id _lane_section_id _lane_id : Int)
    (s a b c d : Rat) : MapData :=
  let _offset := RoadInfo.RoadInfoLaneOffset s a b c d
  g

/-- `MapBuilder::CreateLaneRule`. -/
def CreateLaneRule (g : MapData) (_road_id _lane_section_id _lane_id : Int) (s : Rat)
    (value : String) : MapData :=
  let _rule := RoadInfo.RoadInfoLaneRule s value
  g

/-- `MapBuilder::CreateLaneVisibility`. -/
def CreateLaneVisibility (g : MapData) (_road_id _lane_section_id _lane_id : Int)
    (s forward back left right : Rat) : MapData :=
  let _visibility := RoadInfo.RoadInfoLaneVisibility s forward back left right
  g

/-- `MapBuilder::CreateLaneWidth`. -/
def CreateLaneWidth (g : MapData) (_road_id _lane_section_id _lane_id : Int)
    (s a b c d : Rat) : MapData :=
  let _width := RoadInfo.RoadInfoLaneWidth s a b c d
  g

/-- The lower-casing helper `tl` of `CreateRoadMark`: it throws for every argument. -/
def CreateRoadMark.tl (_x : String) : Except Fault String :=
  Except.error (Fault.runtimeError "not implemented")

/-- `MapBuilder::CreateRoadMark`. -/
def CreateRoadMark (g : MapData) (_road_id _lane_section_id _lane_id : Int)
    (road_mark_id : Int) (s : Rat) (type weight color material : String) (width : Rat)
    (lane_change : String) (height : Rat) (type_name : String) (type_width : Rat) :
    Except Fault MapData :=
  let build (lc : LaneChange) : Except Fault MapData :=
    let _mark := RoadInfo.RoadInfoMarkRecord s road_mark_id type weight color material
      width lc height type_name type_width
    Except.ok g
  match CreateRoadMark.tl lane_change with
  | Except.error f => Except.error f
  | Except.ok t1 =>
    if t1 = "increase" then build LaneChange.Increase
    else
      match CreateRoadMark.tl lane_change with
      | Except.error f => Except.error f
      | Except.ok t2 =>
        if t2 = "decrease" then build LaneChange.Decrease
        else
          match CreateRoadMark.tl lane_change with
          | Except.error f => Except.error f
          | Except.ok t3 =>
            if t3 = "both" then build LaneChange.Both else build LaneChange.None

/-- `MapBuilder::CreateRoadMarkTypeLine`. -/
def CreateRoadMarkTypeLine (g : MapData) (_road_id _lane_section_id _lane_id : Int)
    (road_mark_id : Int) (length space tOffset s : Rat) (rule : String) (width : Rat) :
    MapData :=
  let _line := RoadInfo.RoadInfoMarkTypeLine s road_mark_id length space tOffset rule width
  g

/-- `MapBuilder::CreateLaneSpeed`. -/
def CreateLaneSpeed (g : MapData) (_road_id _lane_section_id _lane_id : Int) (s max : Rat)
    (_unit : String) : MapData :=
  let _speed := RoadInfo.RoadInfoVelocity s max
  g

/-- `MapBuilder::AddSignal`: the pointer returned by `GetRoad` is dereferenced without
a test; the signal is emplaced in the road's signal map. -/
def AddSignal (g : MapData) (road_id signal_id : Nat) (s t : Rat)
    (name dynamic orientation : String) (zOffset : Rat) (country type subtype : String)
    (value : Rat) (unit : String) (height width : Rat) (text : String)
    (hOffset pitch roll : Rat) : Except Fault MapData :=
  match g.GetRoad road_id with
  | none => Except.error Fault.nullDereference
  | some _ =>
    let sig : Signal := ⟨road_id, signal_id, s, t, name, dynamic, orientation, zOffset,
      country, type, subtype, value, unit, height, width, text, hOffset, pitch, roll, []⟩
    let write (road : Road) : Road :=
      { road with _signals := Assoc.emplace signal_id sig road._signals }
    Except.ok { g with _roads := Assoc.modify road_id write g._roads }

/-- `MapBuilder::AddValidityToLastAddedSignal`: the pointer returned by `GetRoad` is
dereferenced without a test. Modelled from the spec: `Road::GetSignal` is defined outside
MapBuilder.cpp; it fails when the road has no signal with the id. -/
def AddValidityToLastAddedSignal (g : MapData) (road_id signal_id : Nat)
    (from_lane to_lane : Int) : Except Fault MapData :=
  match g.GetRoad road_id with
  | none => Except.error Fault.nullDereference
  | some road =>
    match Assoc.find signal_id road._signals with
    | none => Except.error Fault.missingSignal
    | some _ =>
      let add (sig : Signal) : Signal := sig.AddValidity ⟨signal_id, from_lane, to_lane⟩
      let write (road : Road) : Road :=
        { road with _signals := Assoc.modify signal_id add road._signals }
      Except.ok { g with _roads := Assoc.modify road_id write g._roads }

/-- The writes of `AddRoad` through the pointer to the emplaced road. -/
def AddRoad.write (road_id : Nat) (name : String) (length : Rat)
    (junction_id predecessor successor : Int) (road : Road) : Road :=
  { road with
    _id := road_id,
    _name := name,
    _length := length,
    _junction_id := junction_id,
    _is_junction := if junction_id ≠ -1 then true else false,
    _nexts := road._nexts ++ [successor],
    _prevs := road._prevs ++ [predecessor] }

/-- `MapBuilder::AddRoad`: `emplace` yields the entry of `road_id`, new or already
present, and every member is then written through it. -/
def AddRoad (g : MapData) (road_id : Nat) (name : String) (length : Rat)
    (junction_id predecessor successor : Int) : MapData :=
  let write := AddRoad.write road_id name length junction_id predecessor successor
  { g with _roads := Assoc.modify road_id write (Assoc.emplace road_id Road.new g._roads) }

/-- The section that `AddRoadSection` leaves in the multimap: a default-constructed
section whose start offset and lane offset are then written. -/
def AddRoadSection.section (cubic : CubicPolynomial) : LaneSection :=
  { LaneSection.new with _s := cubic.GetS, _lane_offset := cubic }

/-- The change of `AddRoadSection` to the road: a section emplaced in the multimap under
`cubic.GetS()`. -/
def AddRoadSection.write (cubic : CubicPolynomial) (road : Road) : Road :=
  { road with _lane_sections :=
      Assoc.insertOrdered cubic.GetS (AddRoadSection.section cubic) road._lane_sections }

/-- `MapBuilder::AddRoadSection`: a warning and an early return when the road is not
found; otherwise a section is emplaced in the multimap under `cubic.GetS()` and its
members are written through the returned iterator. -/
def AddRoadSection (g : MapData) (road_id : Nat) (cubic : CubicPolynomial) : MapData :=
  match g.GetRoad road_id with
  | none => g
  | some _ => { g with _roads := Assoc.modify road_id (AddRoadSection.write cubic) g._roads }

/-- The writes of `AddRoadSectionLane` through the pointer to the emplaced lane. -/
def AddRoadSectionLane.setLane (lane_id : Int) (lane_type : String) (lane_level : Bool)
    (predecessor successor : Int) (lane : Lane) : Lane :=
  { lane with
    _id := lane_id,
    _level := lane_level,
    _type := lane_type,
    _next_lanes := lane._next_lanes ++ [LanePtr.fromId successor],
    _prev_lanes := lane._prev_lanes ++ [LanePtr.fromId predecessor] }

/-- The change of `AddRoadSectionLane` to the addressed section: the lane is emplaced in
the map of lanes and written. -/
def AddRoadSectionLane.inSection (lane_id : Int) (lane_type : String) (lane_level : Bool)
    (predecessor successor : Int) (sec : LaneSection) : LaneSection :=
  let setLane := AddRoadSectionLane.setLane lane_id lane_type lane_level predecessor successor
  { sec with _lanes := Assoc.modify lane_id setLane (Assoc.emplace lane_id Lane.new sec._lanes) }

/-- The change of `AddRoadSectionLane` to the road: the section reached by advancing
`begin()` by `section_index` is changed. -/
def AddRoadSectionLane.write (section_index : Nat) (lane_id : Int) (lane_type : String)
    (lane_level : Bool) (predecessor successor : Int) (road : Road) : Road :=
  let inSection :=
    AddRoadSectionLane.inSection lane_id lane_type lane_level predecessor successor
  { road with _lane_sections := Assoc.modifyAt section_index inSection road._lane_sections }

/-- `MapBuilder::AddRoadSectionLane`: a warning and an early return when the road is not
found or `section_index` is not below the number of sections; otherwise the section is
reached by advancing `begin()` by `section_index`, the lane is emplaced and its members
are written; the identifiers of the neighbours are stored as pointers. -/
def AddRoadSectionLane (g : MapData) (road_id section_index : Nat) (lane_id : Int)
    (lane_type : String) (lane_level : Bool) (predecessor successor : Int) : MapData :=
  match g.GetRoad road_id with
  | none => g
  | some road =>
    if section_index ≥ road._lane_sections.length then g
    else
      let write := AddRoadSectionLane.write section_index lane_id lane_type lane_level
        predecessor successor
      { g with _roads := Assoc.modify road_id write g._roads }

/-- `MapBuilder::AddJunction`. -/
def AddJunction (g : MapData) (id : Int) (name : String) : MapData :=
  { g with _junctions := Assoc.emplace id ⟨id, name, []⟩ g._junctions }

/-- `MapBuilder::AddConnection`: the pointer returned by `GetJunction` is dereferenced
without a test. -/
def AddConnection (g : MapData) (junction_id connection_id incoming_road
    connecting_road : Int) : Except Fault MapData :=
  match g.GetJunction junction_id with
  | none => Except.error Fault.nullDereference
  | some _ =>
    let con : Connection := ⟨connection_id, incoming_road, connecting_road, []⟩
    let write (j : Junction) : Junction :=
      { j with _connections := Assoc.emplace connection_id con j._connections }
    Except.ok { g with _junctions := Assoc.modify junction_id write g._junctions }

/-- `MapBuilder::AddLaneLink`: the pointers returned by `GetJunction` and
`GetConnection` are dereferenced without a test. -/
def AddLaneLink (g : MapData) (junction_id connection_id from_lane to_lane : Int) :
    Except Fault MapData :=
  match g.GetJunction junction_id with
  | none => Except.error Fault.nullDereference
  | some j =>
    match j.GetConnection connection_id with
    | none => Except.error Fault.nullDereference
    | some _ =>
      let add (c : Connection) : Connection := c.AddLaneLink from_lane to_lane
      let write (j : Junction) : Junction :=
        { j with _connections := Assoc.modify connection_id add j._connections }
      Except.ok { g with _junctions := Assoc.modify junction_id write g._junctions }

/-- `MapBuilder::ProcessLaneLinks`: the body is empty. -/
def ProcessLaneLinks (g : MapData) : MapData := g

/-- Modelled from the spec: `SetTotalRoadSegmentLength` is called by `Build` and defined
outside MapBuilder.cpp. Pass 1 computes the total length of every road; the rule that
gives the total of a road within the graph is not determined and is the parameter
`total`. -/
def SetTotalRoadSegmentLength (total : List (Nat × Road) → Road → Rat) (g : MapData) :
    MapData :=
  let write (e : Nat × Road) : Nat × Road := (e.1, { e.2 with _length := total g._roads e.2 })
  { g with _roads := g._roads.map write }

/-- Modelled from the spec: a road-level link names an existing road, or is the
marker -1 for none. -/
def resolveRoadLink (roads : List (Nat × Road)) (k : Int) : Int :=
  if 0 ≤ k ∧ (Assoc.find k.toNat roads).isSome then k else -1

/-- Modelled from the spec: `CreatePointersBetweenRoadSegments` is called by `Build` and
defined outside MapBuilder.cpp. Pass 1 replaces the raw predecessor and successor road
identifiers of every road by a reference to the road with that id when it exists and by
the marker for none otherwise. -/
def CreatePointersBetweenRoadSegments (g : MapData) : MapData :=
  let write (e : Nat × Road) : Nat × Road :=
    (e.1, { e.2 with
            _nexts := e.2._nexts.map (resolveRoadLink g._roads),
            _prevs := e.2._prevs.map (resolveRoadLink g._roads) })
  { g with _roads := g._roads.map write }

/-- `MapBuilder::Build`: the two road-segment passes, then the graph is moved into the
returned `Map`. `ProcessLaneLinks` is not called. -/
def Build (total : List (Nat × Road) → Road → Rat) (g : MapData) : Option Map :=
  let g1 := SetTotalRoadSegmentLength total g
  let g2 := CreatePointersBetweenRoadSegments g1
  some ⟨g2⟩

/-- One ingestion call on the builder, with its arguments. -/
inductive Event where
  | AddRoadElevationProfile (road_id : Int) (s a b c d : Rat)
  | CreateLaneAccess (road_id lane_section_id lane_id : Int) (s : Rat) (restriction : String)
  | CreateLaneBorder (road_id lane_section_id lane_id : Int) (s a b c d : Rat)
  | CreateLaneHeight (road_id lane_section_id lane_id : Int) (s inner outer : Rat)
  | CreateLaneMaterial (road_id lane_section_id lane_id : Int) (s : Rat) (surface : String)
      (friction roughness : Rat)
  | CreateLaneOffset (road_id lane_section_id lane_id : Int) (s a b c d : Rat)
  | CreateLaneRule (road_id lane_section_id lane_id : Int) (s : Rat) (value : String)
  | CreateLaneVisibility (road_id lane_section_id lane_id : Int)
      (s forward back left right : Rat)
  | CreateLaneWidth (road_id lane_section_id lane_id : Int) (s a b c d : Rat)
  | CreateRoadMark (road_id lane_section_id lane_id road_mark_id : Int) (s : Rat)
      (type weight color material : String) (width : Rat) (lane_change : String)
      (height : Rat) (type_name : String) (type_width : Rat)
  | CreateRoadMarkTypeLine (road_id lane_section_id lane_id road_mark_id : Int)
      (length space tOffset s : Rat) (rule : String) (width : Rat)
  | CreateLaneSpeed (road_id lane_section_id lane_id : Int) (s max : Rat) (unit : String)
  | AddSignal (road_id signal_id : Nat) (s t : Rat) (name dynamic orientation : String)
      (zOffset : Rat) (country type subtype : String) (value : Rat) (unit : String)
      (height width : Rat) (text : String) (hOffset pitch roll : Rat)
  | AddValidityToLastAddedSignal (road_id signal_id : Nat) (from_lane to_lane : Int)
  | AddRoad (road_id : Nat) (name : String) (length : Rat)
      (junction_id predecessor successor : Int)
  | AddRoadSection (road_id : Nat) (cubic : CubicPolynomial)
  | AddRoadSectionLane (road_id section_index : Nat) (lane_id : Int) (lane_type : String)
      (lane_level : Bool) (predecessor successor : Int)
  | AddJunction (id : Int) (name : String)
  | AddConnection (junction_id connection_id incoming_road connecting_road : Int)
  | AddLaneLink (junction_id connection_id from_lane to_lane : Int)
deriving DecidableEq, Repr

/-- The effect of one ingestion call on the graph, or the fault that ends it. -/
def step (g : MapData) : Event → Except Fault MapData
  | Event.AddRoadElevationProfile r s a b c d =>
      Except.ok (AddRoadElevationProfile g r s a b c d)
  | Event.CreateLaneAccess r ls l s x => Except.ok (CreateLaneAccess g r ls l s x)
  | Event.CreateLaneBorder r ls l s a b c d => Except.ok (CreateLaneBorder g r ls l s a b c d)
  | Event.CreateLaneHeight r ls l s i o => Except.ok (CreateLaneHeight g r ls l s i o)
  | Event.CreateLaneMaterial r ls l s x f ro =>
      Except.ok (CreateLaneMaterial g r ls l s x f ro)
  | Event.CreateLaneOffset r ls l s a b c d => Except.ok (CreateLaneOffset g r ls l s a b c d)
  | Event.CreateLaneRule r ls l s v => Except.ok (CreateLaneRule g r ls l s v)
  | Event.CreateLaneVisibility r ls l s f b le ri =>
      Except.ok (CreateLaneVisibility g r ls l s f b le ri)
  | Event.CreateLaneWidth r ls l s a b c d => Except.ok (CreateLaneWidth g r ls l s a b c d)
  | Event.CreateRoadMark r ls l m s ty we co ma wi lc he tn tw =>
      CreateRoadMark g r ls l m s ty we co ma wi lc he tn tw
  | Event.CreateRoadMarkTypeLine r ls l m le sp tof s ru wi =>
      Except.ok (CreateRoadMarkTypeLine g r ls l m le sp tof s ru wi)
  | Event.CreateLaneSpeed r ls l s m u => Except.ok (CreateLaneSpeed g r ls l s m u)
  | Event.AddSignal r i s t na dy ori zo co ty su va un he wi te ho pi ro =>
      AddSignal g r i s t na dy ori zo co ty su va un he wi te ho pi ro
  | Event.AddValidityToLastAddedSignal r i f t => AddValidityToLastAddedSignal g r i f t
  | Event.AddRoad r n len j p su => Except.ok (AddRoad g r n len j p su)
  | Event.AddRoadSection r cubic => Except.ok (AddRoadSection g r cubic)
  | Event.AddRoadSectionLane r i l ty lv p su =>
      Except.ok (AddRoadSectionLane g r i l ty lv p su)
  | Event.AddJunction i n => Except.ok (AddJunction g i n)
  | Event.AddConnection j c i co => AddConnection g j c i co
  | Event.AddLaneLink j c f t => AddLaneLink g j c f t

/-- A sequence of ingestion calls made one after the other; it ends at the first call
that does not return normally. -/
def ingest (g : MapData) : List Event → Except Fault MapData
  | [] => Except.ok g
  | e :: rest =>
      match step g e with
      | Except.ok g1 => ingest g1 rest
      | Except.error f => Except.error f

end MapBuilder

/-! ## Reading the graph -/

/-- The start offsets under which the lane sections of a road are stored, in iteration
order; empty for an unknown road. -/
def MapData.sectionKeys (g : MapData) (road_id : Nat) : List Rat :=
  match g.GetRoad road_id with
  | none => []
  | some road => road._lane_sections.map Prod.fst

/-- The lane with id `lane_id` in the section at position `section_index` of a road. -/
def MapData.lane (g : MapData) (road_id section_index : Nat) (lane_id : Int) : Option Lane :=
  match g.GetRoad road_id with
  | none => none
  | some road =>
    match road._lane_sections[section_index]? with
    | none => none
    | some sec => Assoc.find lane_id sec.2._lanes

/-- A pointer slot refers to a lane of the graph. -/
def MapData.refersToLane (g : MapData) : LanePtr → Bool
  | LanePtr.fromId _ => false
  | LanePtr.toLane road_id section_index lane_id =>
      (g.lane road_id section_index lane_id).isSome

/-- The sections of a road are stored in non-decreasing order of key, each under its own
start offset. -/
def MapBuilder.OrderedSections (road : Road) : Prop :=
  (road._lane_sections.map Prod.fst).Pairwise (fun a b => a ≤ b) ∧
    ∀ e ∈ road._lane_sections, e.2._s = e.1

/-- Every pointer slot of every lane of the road holds an integer cast to a pointer. -/
def MapBuilder.RawLinks (road : Road) : Prop :=
  ∀ sec ∈ road._lane_sections, ∀ l ∈ sec.2._lanes,
    ∀ p ∈ l.2._next_lanes ++ l.2._prev_lanes, ∃ k, p = LanePtr.fromId k

/-- Every pointer slot of every lane of the graph, successors and predecessors. -/
def MapData.laneLinks (g : MapData) : List LanePtr :=
  g._roads.flatMap (fun r => r.2._lane_sections.flatMap (fun sec =>
    sec.2._lanes.flatMap (fun l => l.2._next_lanes ++ l.2._prev_lanes)))

/-- A pointer slot is sound when it is null or refers to a lane of the graph. -/
def MapData.soundLink (g : MapData) (p : LanePtr) : Bool :=
  p == LanePtr.null || g.refersToLane p

/-- The builder used from construction to `Build`: the calls are ingested into an empty
graph and the graph is finalized; `none` when a call does not return normally. -/
def MapBuilder.run (total : List (Nat × Road) → Road → Rat) (calls : List MapBuilder.Event) :
    Option Map :=
  match MapBuilder.ingest MapData.empty calls with
  | Except.ok g => MapBuilder.Build total g
  | Except.error _ => none

/-- The attribute-attachment calls among the ingestion calls. -/
def MapBuilder.Event.isAttribute : MapBuilder.Event → Bool
  | MapBuilder.Event.AddRoadElevationProfile .. => true
  | MapBuilder.Event.CreateLaneAccess .. => true
  | MapBuilder.Event.CreateLaneBorder .. => true
  | MapBuilder.Event.CreateLaneHeight .. => true
  | MapBuilder.Event.CreateLaneMaterial .. => true
  | MapBuilder.Event.CreateLaneOffset .. => true
  | MapBuilder.Event.CreateLaneRule .. => true
  | MapBuilder.Event.CreateLaneVisibility .. => true
  | MapBuilder.Event.CreateLaneWidth .. => true
  | MapBuilder.Event.CreateRoadMark .. => true
  | MapBuilder.Event.CreateRoadMarkTypeLine .. => true
  | MapBuilder.Event.CreateLaneSpeed .. => true
  | _ => false

/-- The call is `CreateRoadMark`. -/
def MapBuilder.Event.isRoadMark : MapBuilder.Event → Bool
  | MapBuilder.Event.CreateRoadMark .. => true
  | _ => false

/-- The lane sections of a road in iteration order, each as its key and the curve it
holds as lane offset; empty for an unknown road. -/
def MapData.sectionCurves (g : MapData) (road_id : Nat) : List (Rat × CubicPolynomial) :=
  match g.GetRoad road_id with
  | none => []
  | some road => road._lane_sections.map (fun e => (e.1, e.2._lane_offset))

/-- The curve of the call when it creates a section of road `r` in the graph `g`: an
`AddRoadSection` call for `r` made while `r` is known. -/
def MapBuilder.createdBy (r : Nat) (g : MapData) : MapBuilder.Event → Option CubicPolynomial
  | MapBuilder.Event.AddRoadSection r1 cubic =>
      if r1 = r ∧ (g.GetRoad r).isSome = true then some cubic else none
  | _ => none

/-- The curves of the `AddRoadSection` calls of a sequence, ingested from `g`, that
created a section of road `r`, in call order. -/
def MapBuilder.createdSections (r : Nat) : MapData → List MapBuilder.Event →
    List CubicPolynomial
  | _, [] => []
  | g, e :: rest =>
    match MapBuilder.step g e with
    | Except.error _ => []
    | Except.ok g1 => (MapBuilder.createdBy r g e).toList ++ createdSections r g1 rest

/-- `MapBuilder::GetLaneAddress(RoadId, bool, LaneId)`: the null pointer for an unknown
road; otherwise the section is the one at `begin()` or at `rbegin()` of the multimap,
taken without a test that the multimap has an element, and the lane is looked up in it by
id. The result is the returned pointer together with the graph, which no statement of
the body writes. -/
def MapBuilder.GetLaneAddress.fromStart (g : MapData) (road_id : Nat) (from_start : Bool)
    (lane_id : Int) : Except Fault (LanePtr × MapData) :=
  match g.GetRoad road_id with
  | none => Except.ok (LanePtr.null, g)
  | some road =>
    let found : Option (Nat × LaneSection) :=
      if from_start then road._lane_sections.head?.map (fun e => (0, e.2))
      else road._lane_sections.getLast?.map (fun e => (road._lane_sections.length - 1, e.2))
    match found with
    | none => Except.error Fault.pastTheEnd
    | some (position, sec) =>
      match Assoc.find lane_id sec._lanes with
      | some _ => Except.ok (LanePtr.toLane road_id position lane_id, g)
      | none => Except.ok (LanePtr.null, g)

/-- `MapBuilder::GetLaneAddress(RoadId, uint32_t, LaneId)`: the null pointer for an
unknown road; otherwise `begin()` is advanced by `section_index`, without a test against
the number of sections, and the lane is looked up by id in the section reached. The
result is the returned pointer together with the graph, which no statement of the body
writes. -/
def MapBuilder.GetLaneAddress.atIndex (g : MapData) (road_id section_index : Nat)
    (lane_id : Int) : Except Fault (LanePtr × MapData) :=
  match g.GetRoad road_id with
  | none => Except.ok (LanePtr.null, g)
  | some road =>
    match road._lane_sections[section_index]? with
    | none => Except.error Fault.pastTheEnd
    | some sec =>
      match Assoc.find lane_id sec.2._lanes with
      | some _ => Except.ok (LanePtr.toLane road_id section_index lane_id, g)
      | none => Except.ok (LanePtr.null, g)

/-! ## Scenarios -/

namespace Scenario

open MapBuilder

/-- A curve with start offset `s` and zero coefficients. -/
def curveAt (s : Rat) : CubicPolynomial := ⟨s, 0, 0, 0, 0⟩

/-- Two roads in a chain, one section and one lane each; the lane of road 1 names
lane -1 as its successor and the lane of road 2 names lane -1 as its predecessor. -/
def twoRoads : List Event :=
  [Event.AddRoad 1 "R1" 100 (-1) (-1) 2,
   Event.AddRoad 2 "R2" 50 (-1) 1 (-1),
   Event.AddRoadSection 1 (curveAt 0),
   Event.AddRoadSection 2 (curveAt 0),
   Event.AddRoadSectionLane 1 0 (-1) "driving" false 0 (-1),
   Event.AddRoadSectionLane 2 0 (-1) "driving" false (-1) 0]

/-- One road with two sections and a lane -1 in each; the lane of the first section
names lane -1 as its successor, the lane of the second names lane -1 as its
predecessor. -/
def twoSections : List Event :=
  [Event.AddRoad 1 "R1" 100 (-1) (-1) (-1),
   Event.AddRoadSection 1 (curveAt 0),
   Event.AddRoadSection 1 (curveAt 10),
   Event.AddRoadSectionLane 1 0 (-1) "driving" false 0 (-1),
   Event.AddRoadSectionLane 1 1 (-1) "driving" false (-1) 0]

/-- One road with one section and one lane, whose raw successor 7 matches no lane. -/
def strayLink : List Event :=
  [Event.AddRoad 1 "R1" 100 (-1) (-1) (-1),
   Event.AddRoadSection 1 (curveAt 0),
   Event.AddRoadSectionLane 1 0 (-1) "driving" false 0 7]

/-- One road to which two sections with the same start offset are added. -/
def equalOffsets : List Event :=
  [Event.AddRoad 1 "R1" 100 (-1) (-1) (-1),
   Event.AddRoadSection 1 (curveAt 0),
   Event.AddRoadSection 1 (curveAt 0)]

/-- One road whose only section starts at offset 10. -/
def lateSection : List Event :=
  [Event.AddRoad 1 "R1" 100 (-1) (-1) (-1),
   Event.AddRoadSection 1 (curveAt 10)]

/-- One road to which a section at offset 10 is added before a section at offset 0,
and then a lane addressed with section index 0. -/
def reversedSections : List Event :=
  [Event.AddRoad 1 "R1" 100 (-1) (-1) (-1),
   Event.AddRoadSection 1 (curveAt 10),
   Event.AddRoadSection 1 (curveAt 0),
   Event.AddRoadSectionLane 1 0 (-1) "driving" false 0 0]

/-- The same road id added twice with different arguments. -/
def roadAddedTwice : List Event :=
  [Event.AddRoad 1 "R1" 100 (-1) (-1) 2,
   Event.AddRoad 1 "X" 5 3 7 8]

/-- A junction with one connection and two lane links. -/
def junctionLinks : List Event :=
  [Event.AddJunction 10 "J",
   Event.AddConnection 10 1 5 6,
   Event.AddLaneLink 10 1 (-1) 1,
   Event.AddLaneLink 10 1 (-2) 2]

/-- Road 5 alone. -/
def roadFive : MapData := AddRoad MapData.empty 5 "R5" 100 (-1) (-1) (-1)

/-- The signal 100 that the signal scenarios add to road 5, before any validity. -/
def signal100 : Signal :=
  ⟨5, 100, 10, 2, "sign", "no", "+", 0, "OpenDRIVE", "274", "56", 60, "km/h", 1, 1, "",
    0, 0, 0, []⟩

/-- Road 5 with signal 100 and one validity range from lane -1 to lane -3. -/
def signalValidity : List Event :=
  [Event.AddRoad 5 "R5" 100 (-1) (-1) (-1),
   Event.AddSignal 5 100 10 2 "sign" "no" "+" 0 "OpenDRIVE" "274" "56" 60 "km/h" 1 1 ""
     0 0 0,
   Event.AddValidityToLastAddedSignal 5 100 (-1) (-3)]

/-- Road 1 with one section and the lane -1 in it. -/
def oneLane : MapData :=
  AddRoadSectionLane (AddRoadSection (AddRoad MapData.empty 1 "R1" 100 (-1) (-1) (-1)) 1
    (curveAt 0)) 1 0 (-1) "driving" false 0 0

end Scenario

end carla.road

/-! # RoadRunnerImporter

The two pure parts of the RoadRunner importer plugin
(Unreal/CarlaUE4/Plugins/RoadRunnerPlugin/Source/RoadRunnerImporter/Private/RoadRunnerImporter.cpp):
the name clean-up `MakeName` and the choice of the base material in
`CreateUnrealMaterial`. An ANSI string is the list of its characters before the
terminating zero; an `FString` is a string.
-/

namespace RoadRunnerImporter

/-- The C function behind `FCStringAnsi::Strchr`: a pointer to the first occurrence of
`c`, here the rest of the string from that occurrence on, or the null pointer. -/
def Strchr : List Char → Char → Option (List Char)
  | [], _ => none
  | x :: rest, c => if x = c then some (x :: rest) else Strchr rest c

namespace FRoadRunnerImporterModule

/-- The array `SpecialChars` of `MakeName`. -/
def SpecialChars : List Char := ['.', ',', '/', '\x60', '%']

/-- The inner loop of `MakeName` for one special character `c`: each `Strchr` moves
`CharPtr` forward to the next occurrence of `c`, which is overwritten with an
underscore; the characters passed over stay as they are. -/
def replaceChar (c : Char) : List Char → List Char
  | [] => []
  | x :: rest => if x = c then '_' :: replaceChar c rest else x :: replaceChar c rest

/-- The loop of `MakeName` that looks for the last colon: `NewName` points to a colon;
while `Strchr(NewName + 1, ':')` finds a further colon, `NewName` moves to it. The first
argument bounds the number of turns. -/
def lastNamespace : Nat → List Char → List Char
  | 0, NewName => NewName
  | fuel + 1, NewName =>
    match Strchr (NewName.drop 1) ':' with
    | some next => lastNamespace fuel next
    | none => NewName

/-- `FRoadRunnerImporterModule::MakeName`: the name is copied, every special character
is overwritten with an underscore, and the result is the copy from the character after
its last colon on, or the whole copy when it has no colon. -/
def MakeName (Name : List Char) : List Char :=
  let len := Name.length
  let TmpName := SpecialChars.foldl (fun tmp c => replaceChar c tmp) Name
  match Strchr TmpName ':' with
  | some NewName => (lastNamespace len NewName).drop 1
  | none => TmpName

/-- The part of a string after its last occurrence of `c`, when `c` occurs. -/
def afterLast (c : Char) : List Char → Option (List Char)
  | [] => none
  | x :: rest =>
    match afterLast c rest with
    | some tail => some tail
    | none => if x = c then some rest else none

/-- The name that the description of `MakeName` gives: every `.`, `,`, `/`, backquote and
`%` replaced by `_`, then the part after the last `:`, or the whole replaced string when
it has no `:`. -/
def MakeNameSpec (n : List Char) : List Char :=
  let replaced := n.map (fun x => if x ∈ SpecialChars then '_' else x)
  (afterLast ':' replaced).getD replaced

end FRoadRunnerImporterModule

/-- The strings of one material of the RoadRunner metadata file. -/
structure MaterialInfo where
  Name : String
  DiffuseMap : String
  NormalMap : String
  SpecularMap : String
  DiffuseColor : String
  SpecularColor : String
  SpecularFactor : String
  TransparencyMap : String
  TransparencyFactor : String
  Roughness : String
  Emission : String
  TextureScaleU : String
  TextureScaleV : String
  TwoSided : String
  DrawQueue : String
  ShadowCaster : String
  IsDecal : String
deriving DecidableEq, Repr

/-- The transparency that `CreateUnrealMaterial` reads: 0 unless `TransparencyFactor` is
non-empty, then its value as parsed by `FCString::Atof`, which is the parameter `Atof`. -/
def CreateUnrealMaterial.transparency (Atof : String → Rat) (materialInfo : MaterialInfo) :
    Rat :=
  if ¬ materialInfo.TransparencyFactor.isEmpty then Atof materialInfo.TransparencyFactor
  else 0

/-- The flag `isTransparent` of `CreateUnrealMaterial`. -/
def CreateUnrealMaterial.isTransparent (Atof : String → Rat) (materialInfo : MaterialInfo) :
    Bool :=
  !materialInfo.TransparencyMap.isEmpty ||
    decide (CreateUnrealMaterial.transparency Atof materialInfo > 0)

/-- The name of the base material that `CreateUnrealMaterial` searches for, as its
nested conditions assign it to `materialName`; `CurrentMetadataVersion` is the static
member of the module. -/
def CreateUnrealMaterial.materialName (Atof : String → Rat) (CurrentMetadataVersion : Int)
    (materialInfo : MaterialInfo) : String :=
  let transparency := CreateUnrealMaterial.transparency Atof materialInfo
  let isTransparent := CreateUnrealMaterial.isTransparent Atof materialInfo
  if CurrentMetadataVersion ≥ 1 then
    if isTransparent then
      if materialInfo.TwoSided = "true" then
        if ¬ materialInfo.DrawQueue = "0" ∨ materialInfo.ShadowCaster = "false" then
          "BaseTransparentMaterialTwoSided"
        else "BaseCutoutMaterialTwoSided"
      else
        if ¬ materialInfo.DrawQueue = "0" ∨ materialInfo.ShadowCaster = "false" then
          "BaseTransparentMaterial"
        else "BaseCutoutMaterial"
    else "BaseMaterial"
  else
    if isTransparent then
      if materialInfo.TwoSided = "true" then
        if transparency > 0 then "BaseTransparentMaterialTwoSided"
        else "BaseCutoutMaterialTwoSided"
      else
        if transparency > 0 then "BaseTransparentMaterial"
        else "BaseCutoutMaterial"
    else "BaseMaterial"

end RoadRunnerImporter

namespace carla.road

/-! ## Container lemmas -/

namespace Assoc

variable {K V : Type}

theorem find_append_of_none [DecidableEq K] (k : K) (pre rest : List (K × V))
    (h : find k pre = none) : find k (pre ++ rest) = find k rest := by
  induction pre with
  | nil => rfl
  | cons e pre ih =>
    obtain ⟨k1, v1⟩ := e
    by_cases hk : k1 = k
    · simp [find, hk] at h
    · simp only [find, hk, if_false] at h
      simp only [List.cons_append, find, hk, if_false]
      exact ih h

theorem find_append_none [DecidableEq K] (k : K) (pre rest : List (K × V))
    (h : find k (pre ++ rest) = none) : find k pre = none ∧ find k rest = none := by
  induction pre with
  | nil => exact ⟨rfl, h⟩
  | cons e pre ih =>
    obtain ⟨k1, v1⟩ := e
    by_cases hk : k1 = k
    · simp [find, hk] at h
    · simp only [List.cons_append, find, hk, if_false] at h
      simp only [find, hk, if_false]
      exact ih h

theorem find_middle_ne [DecidableEq K] (k k2 : K) (v : V) (pre post : List (K × V))
    (hne : k2 ≠ k) : find k2 (pre ++ (k, v) :: post) = find k2 (pre ++ post) := by
  induction pre with
  | nil => simp [find, Ne.symm hne]
  | cons e pre ih =>
    obtain ⟨k1, v1⟩ := e
    by_cases hk : k1 = k2
    · simp [find, hk]
    · simp only [List.cons_append, find, hk, if_false]
      exact ih

theorem find_middle_self [DecidableEq K] (k : K) (v : V) (pre post : List (K × V))
    (h : find k pre = none) : find k (pre ++ (k, v) :: post) = some v := by
  rw [find_append_of_none k pre _ h]
  simp [find]

theorem mem_of_find [DecidableEq K] (k : K) (v : V) (m : List (K × V))
    (h : find k m = some v) : (k, v) ∈ m := by
  induction m with
  | nil => simp [find] at h
  | cons e m ih =>
    obtain ⟨k1, v1⟩ := e
    by_cases hk : k1 = k
    · simp only [find, hk, if_true, Option.some.injEq] at h
      simp [hk, h]
    · simp only [find, hk, if_false] at h
      exact List.mem_cons_of_mem _ (ih h)

theorem modify_split [DecidableEq K] (k : K) (f : V → V) (m : List (K × V)) (v : V)
    (h : find k m = some v) :
    ∃ pre post, m = pre ++ (k, v) :: post ∧ modify k f m = pre ++ (k, f v) :: post ∧
      find k pre = none := by
  induction m with
  | nil => simp [find] at h
  | cons e m ih =>
    obtain ⟨k1, v1⟩ := e
    by_cases hk : k1 = k
    · simp only [find, hk, if_true, Option.some.injEq] at h
      refine ⟨[], m, ?_, ?_, rfl⟩
      · simp [hk, h]
      · simp [modify, hk, h]
    · simp only [find, hk, if_false] at h
      obtain ⟨pre, post, h1, h2, h3⟩ := ih h
      refine ⟨(k1, v1) :: pre, post, ?_, ?_, ?_⟩
      · simp [h1]
      · simp [modify, hk, h2]
      · simp [find, hk, h3]

theorem modify_of_find_none [DecidableEq K] (k : K) (f : V → V) (m : List (K × V))
    (h : find k m = none) : modify k f m = m := by
  induction m with
  | nil => rfl
  | cons e m ih =>
    obtain ⟨k1, v1⟩ := e
    by_cases hk : k1 = k
    · simp [find, hk] at h
    · simp only [find, hk, if_false] at h
      simp [modify, hk, ih h]

theorem insertOrdered_split [LT K] [DecidableRel (fun a b : K => a < b)] (k : K) (v : V)
    (m : List (K × V)) :
    ∃ pre post, m = pre ++ post ∧ insertOrdered k v m = pre ++ (k, v) :: post ∧
      (∀ e ∈ pre, ¬ k < e.1) ∧ (∀ e, post.head? = some e → k < e.1) := by
  induction m with
  | nil => exact ⟨[], [], rfl, rfl, by simp, by simp⟩
  | cons e m ih =>
    obtain ⟨k1, v1⟩ := e
    by_cases hk : k < k1
    · refine ⟨[], (k1, v1) :: m, rfl, ?_, by simp, ?_⟩
      · simp [insertOrdered, hk]
      · intro e he
        simp only [List.head?_cons, Option.some.injEq] at he
        rw [← he]
        exact hk
    · obtain ⟨pre, post, h1, h2, h3, h4⟩ := ih
      refine ⟨(k1, v1) :: pre, post, ?_, ?_, ?_, h4⟩
      · simp [h1]
      · simp [insertOrdered, hk, h2]
      · intro e he
        rcases List.mem_cons.mp he with rfl | he
        · exact hk
        · exact h3 e he

theorem modifyAt_of_length_le (n : Nat) (f : V → V) (m : List (K × V))
    (h : m.length ≤ n) : modifyAt n f m = m := by
  induction m generalizing n with
  | nil => simp [modifyAt]
  | cons e m ih =>
    obtain ⟨k1, v1⟩ := e
    cases n with
    | zero => simp at h
    | succ n =>
      simp only [List.length_cons, Nat.add_le_add_iff_right] at h
      simp [modifyAt, ih n h]

theorem modifyAt_split (n : Nat) (f : V → V) (m : List (K × V)) (k : K) (v : V)
    (h : m[n]? = some (k, v)) :
    ∃ pre post, m = pre ++ (k, v) :: post ∧ pre.length = n ∧
      modifyAt n f m = pre ++ (k, f v) :: post := by
  induction m generalizing n with
  | nil => simp at h
  | cons e m ih =>
    obtain ⟨k1, v1⟩ := e
    cases n with
    | zero =>
      simp only [List.getElem?_cons_zero, Option.some.injEq, Prod.mk.injEq] at h
      obtain ⟨rfl, rfl⟩ := h
      exact ⟨[], m, rfl, rfl, rfl⟩
    | succ n =>
      simp only [List.getElem?_cons_succ] at h
      obtain ⟨pre, post, h1, h2, h3⟩ := ih n h
      refine ⟨(k1, v1) :: pre, post, ?_, ?_, ?_⟩
      · simp [h1]
      · simp [h2]
      · simp [modifyAt, h3]

theorem modify_middle [DecidableEq K] (k : K) (f : V → V) (v : V) (pre post : List (K × V))
    (h : find k pre = none) :
    modify k f (pre ++ (k, v) :: post) = pre ++ (k, f v) :: post := by
  induction pre with
  | nil => simp [modify]
  | cons e pre ih =>
    obtain ⟨k1, v1⟩ := e
    by_cases hk : k1 = k
    · simp [find, hk] at h
    · simp only [find, hk, if_false] at h
      simp [modify, hk, ih h]

theorem getElem?_middle (pre post : List (K × V)) (e : K × V) :
    (pre ++ e :: post)[pre.length]? = some e := by
  induction pre with
  | nil => simp
  | cons a pre ih => simpa using ih

theorem find_modify [DecidableEq K] (k k2 : K) (f : V → V) (m : List (K × V)) :
    find k2 (modify k f m) = if k2 = k then (find k m).map f else find k2 m := by
  induction m with
  | nil => simp [modify, find]
  | cons e m ih =>
    obtain ⟨k1, v1⟩ := e
    by_cases hk : k1 = k
    · subst hk
      by_cases hk2 : k1 = k2
      · subst hk2
        simp [modify, find]
      · simp [modify, find, hk2, Ne.symm hk2]
    · by_cases hk2 : k1 = k2
      · subst hk2
        simp [modify, find, hk]
      · simp only [modify, hk, if_false, find, hk2]
        exact ih

theorem find_emplace [DecidableEq K] [LT K] [DecidableRel (fun a b : K => a < b)]
    (k k2 : K) (v : V) (m : List (K × V)) :
    find k2 (emplace k v m) = if k2 = k then some ((find k m).getD v) else find k2 m := by
  unfold emplace
  cases hf : find k m with
  | some x =>
    by_cases hk : k2 = k
    · simp [hk, hf]
    · simp [hk]
  | none =>
    obtain ⟨pre, post, h1, h2, -, -⟩ := insertOrdered_split k v m
    simp only [h2]
    by_cases hk : k2 = k
    · subst hk
      rw [h1] at hf
      simp [find_middle_self k2 v pre post (find_append_none k2 pre post hf).1]
    · simp only [hk, if_false]
      rw [find_middle_ne k k2 v pre post hk, h1]

theorem mem_insertOrdered [LT K] [DecidableRel (fun a b : K => a < b)] (k : K) (v : V)
    (m : List (K × V)) (e : K × V) : e ∈ insertOrdered k v m ↔ e = (k, v) ∨ e ∈ m := by
  obtain ⟨pre, post, h1, h2, -, -⟩ := insertOrdered_split k v m
  rw [h2, h1]
  simp only [List.mem_append, List.mem_cons]
  tauto

theorem mem_modify [DecidableEq K] (k : K) (f : V → V) (m : List (K × V)) (e : K × V)
    (h : e ∈ modify k f m) : e ∈ m ∨ ∃ v, (k, v) ∈ m ∧ e = (k, f v) := by
  induction m with
  | nil => simp [modify] at h
  | cons a m ih =>
    obtain ⟨k1, v1⟩ := a
    by_cases hk : k1 = k
    · subst hk
      simp only [modify, if_true, List.mem_cons] at h
      rcases h with h | h
      · exact Or.inr ⟨v1, List.mem_cons_self _ _, h⟩
      · exact Or.inl (List.mem_cons_of_mem _ h)
    · simp only [modify, hk, if_false, List.mem_cons] at h
      rcases h with h | h
      · exact Or.inl (h ▸ List.mem_cons_self _ _)
      · rcases ih h with h1 | ⟨v, h1, h2⟩
        · exact Or.inl (List.mem_cons_of_mem _ h1)
        · exact Or.inr ⟨v, List.mem_cons_of_mem _ h1, h2⟩

theorem mem_emplace [DecidableEq K] [LT K] [DecidableRel (fun a b : K => a < b)]
    (k : K) (v : V) (m : List (K × V)) (e : K × V) (h : e ∈ emplace k v m) :
    e = (k, v) ∨ e ∈ m := by
  unfold emplace at h
  cases hf : find k m with
  | some x =>
    rw [hf] at h
    exact Or.inr h
  | none =>
    rw [hf] at h
    exact (mem_insertOrdered k v m e).mp h

theorem mem_modifyAt (n : Nat) (f : V → V) (m : List (K × V)) (e : K × V)
    (h : e ∈ modifyAt n f m) : e ∈ m ∨ ∃ v, (e.1, v) ∈ m ∧ e.2 = f v := by
  induction m generalizing n with
  | nil => simp [modifyAt] at h
  | cons a m ih =>
    obtain ⟨k1, v1⟩ := a
    cases n with
    | zero =>
      simp only [modifyAt, List.mem_cons] at h
      rcases h with h | h
      · exact Or.inr ⟨v1, by simp [h], by simp [h]⟩
      · exact Or.inl (List.mem_cons_of_mem _ h)
    | succ n =>
      simp only [modifyAt, List.mem_cons] at h
      rcases h with h | h
      · exact Or.inl (h ▸ List.mem_cons_self _ _)
      · rcases ih n h with h1 | ⟨v, h1, h2⟩
        · exact Or.inl (List.mem_cons_of_mem _ h1)
        · exact Or.inr ⟨v, List.mem_cons_of_mem _ h1, h2⟩

theorem map_fst_modify [DecidableEq K] (k : K) (f : V → V) (m : List (K × V)) :
    (modify k f m).map Prod.fst = m.map Prod.fst := by
  induction m with
  | nil => rfl
  | cons a m ih =>
    obtain ⟨k1, v1⟩ := a
    by_cases hk : k1 = k
    · simp [modify, hk]
    · simp [modify, hk, ih]

theorem map_fst_modifyAt (n : Nat) (f : V → V) (m : List (K × V)) :
    (modifyAt n f m).map Prod.fst = m.map Prod.fst := by
  induction m generalizing n with
  | nil => simp [modifyAt]
  | cons a m ih =>
    obtain ⟨k1, v1⟩ := a
    cases n with
    | zero => simp [modifyAt]
    | succ n => simp [modifyAt, ih n]

theorem map_fst_insertOrdered [LT K] [DecidableRel (fun a b : K => a < b)] (k : K) (v : V)
    (m : List (K × V)) :
    ∃ pre post, m.map Prod.fst = pre ++ post ∧
      (insertOrdered k v m).map Prod.fst = pre ++ k :: post := by
  obtain ⟨pre, post, h1, h2, -, -⟩ := insertOrdered_split k v m
  exact ⟨pre.map Prod.fst, post.map Prod.fst, by simp [h1], by simp [h2]⟩

theorem insertOrdered_sorted [LinearOrder K] [DecidableRel (fun a b : K => a < b)] (k : K)
    (v : V) (m : List (K × V)) (h : (m.map Prod.fst).Pairwise (fun a b => a ≤ b)) :
    ((insertOrdered k v m).map Prod.fst).Pairwise (fun a b => a ≤ b) := by
  induction m with
  | nil => simp [insertOrdered]
  | cons a m ih =>
    obtain ⟨k1, v1⟩ := a
    simp only [List.map_cons, List.pairwise_cons] at h
    by_cases hk : k < k1
    · simp only [insertOrdered, hk, if_true, List.map_cons, List.pairwise_cons]
      refine ⟨?_, h.1, h.2⟩
      intro b hb
      rcases List.mem_cons.mp hb with rfl | hb
      · exact le_of_lt hk
      · exact le_trans (le_of_lt hk) (h.1 b hb)
    · simp only [insertOrdered, hk, if_false, List.map_cons, List.pairwise_cons]
      refine ⟨?_, ih h.2⟩
      intro b hb
      obtain ⟨e, he, rfl⟩ := List.mem_map.mp hb
      rcases (mem_insertOrdered k v m e).mp he with rfl | he
      · exact not_lt.mp hk
      · exact h.1 e.1 (List.mem_map_of_mem _ he)

end Assoc

/-! ## The roads of the graph across the ingestion calls -/

namespace MapBuilder

theorem createRoadMark_error (g : MapData) (r ls l m : Int) (s : Rat)
    (ty we co ma : String) (wi : Rat) (lc : String) (he : Rat) (tn : String) (tw : Rat) :
    CreateRoadMark g r ls l m s ty we co ma wi lc he tn tw =
      Except.error (Fault.runtimeError "not implemented") := rfl

theorem getRoad_AddRoad (g : MapData) (road_id : Nat) (name : String) (length : Rat)
    (junction_id predecessor successor : Int) (r : Nat) :
    (AddRoad g road_id name length junction_id predecessor successor).GetRoad r =
      if r = road_id then
        some (AddRoad.write road_id name length junction_id predecessor successor
          ((g.GetRoad road_id).getD Road.new))
      else g.GetRoad r := by
  unfold AddRoad MapData.GetRoad
  simp only [Assoc.find_modify, Assoc.find_emplace]
  by_cases h : r = road_id
  · simp [h]
  · simp [h]

theorem getRoad_AddRoadSection (g : MapData) (road_id : Nat) (cubic : CubicPolynomial)
    (r : Nat) :
    (AddRoadSection g road_id cubic).GetRoad r =
      if r = road_id then (g.GetRoad road_id).map (AddRoadSection.write cubic)
      else g.GetRoad r := by
  unfold AddRoadSection
  cases hg : g.GetRoad road_id with
  | none =>
    by_cases h : r = road_id
    · simp [h, hg]
    · simp [h]
  | some road =>
    simp only [MapData.GetRoad, Assoc.find_modify]
    unfold MapData.GetRoad at hg
    by_cases h : r = road_id
    · simp [h, hg]
    · simp [h]

theorem addRoadSectionLane_write_of_le (section_index : Nat) (lane_id : Int)
    (lane_type : String) (lane_level : Bool) (predecessor successor : Int) (road : Road)
    (h : road._lane_sections.length ≤ section_index) :
    AddRoadSectionLane.write section_index lane_id lane_type lane_level predecessor successor
      road = road := by
  unfold AddRoadSectionLane.write
  simp only
  rw [Assoc.modifyAt_of_length_le section_index _ road._lane_sections h]

theorem getRoad_AddRoadSectionLane (g : MapData) (road_id section_index : Nat)
    (lane_id : Int) (lane_type : String) (lane_level : Bool) (predecessor successor : Int)
    (r : Nat) :
    (AddRoadSectionLane g road_id section_index lane_id lane_type lane_level predecessor
      successor).GetRoad r =
      if r = road_id then
        (g.GetRoad road_id).map (AddRoadSectionLane.write section_index lane_id lane_type
          lane_level predecessor successor)
      else g.GetRoad r := by
  unfold AddRoadSectionLane
  cases hg : g.GetRoad road_id with
  | none =>
    by_cases h : r = road_id
    · simp [h, hg]
    · simp [h]
  | some road =>
    by_cases hle : road._lane_sections.length ≤ section_index
    · simp only [ge_iff_le, hle, if_true]
      by_cases h : r = road_id
      · simp [h, hg, addRoadSectionLane_write_of_le _ _ _ _ _ _ road hle]
      · simp [h]
    · simp only [ge_iff_le, hle, if_false, MapData.GetRoad, Assoc.find_modify]
      unfold MapData.GetRoad at hg
      by_cases h : r = road_id
      · simp [h, hg]
      · simp [h]

/-- A property of roads that holds for a default-constructed road and is kept by the
writes of the ingestion calls holds for every road of the graph after a call, when it did
before. -/
theorem step_roads_forall (P : Road → Prop) (hnew : P Road.new)
    (hRoad : ∀ r n l j p s road, P road → P (AddRoad.write r n l j p s road))
    (hSec : ∀ c road, P road → P (AddRoadSection.write c road))
    (hLane : ∀ i l t lv p s road, P road → P (AddRoadSectionLane.write i l t lv p s road))
    (hSig : ∀ (road : Road) sigs, P road → P { road with _signals := sigs })
    (g g1 : MapData) (e : Event) (h : step g e = Except.ok g1)
    (hg : ∀ x ∈ g._roads, P x.2) : ∀ x ∈ g1._roads, P x.2 := by
  cases e
  case CreateRoadMark r ls l m s ty we co ma wi lc he tn tw =>
    simp [step, createRoadMark_error] at h
  case AddSignal r i s t na dy ori zo co ty su va un he wi te ho pi ro =>
    simp only [step, AddSignal] at h
    cases hr : g.GetRoad r with
    | none => simp [hr] at h
    | some road =>
      simp only [hr, Except.ok.injEq] at h
      subst h
      intro x hx
      rcases Assoc.mem_modify _ _ _ x hx with hx | ⟨v, hv, rfl⟩
      · exact hg x hx
      · exact hSig v _ (hg _ hv)
  case AddValidityToLastAddedSignal r i f t =>
    simp only [step, AddValidityToLastAddedSignal] at h
    cases hr : g.GetRoad r with
    | none => simp [hr] at h
    | some road =>
      simp only [hr] at h
      cases hs : Assoc.find i road._signals with
      | none => simp [hs] at h
      | some sig =>
        simp only [hs, Except.ok.injEq] at h
        subst h
        intro x hx
        rcases Assoc.mem_modify _ _ _ x hx with hx | ⟨v, hv, rfl⟩
        · exact hg x hx
        · exact hSig v _ (hg _ hv)
  case AddRoad r n len j p su =>
    simp only [step, AddRoad, Except.ok.injEq] at h
    subst h
    have hem : ∀ x ∈ Assoc.emplace r Road.new g._roads, P x.2 := by
      intro x hx
      rcases Assoc.mem_emplace _ _ _ x hx with rfl | hx
      · exact hnew
      · exact hg x hx
    intro x hx
    rcases Assoc.mem_modify _ _ _ x hx with hx | ⟨v, hv, rfl⟩
    · exact hem x hx
    · exact hRoad _ _ _ _ _ _ v (hem _ hv)
  case AddRoadSection r cubic =>
    simp only [step, AddRoadSection, Except.ok.injEq] at h
    cases hr : g.GetRoad r with
    | none =>
      simp only [hr] at h
      subst h
      exact hg
    | some road =>
      simp only [hr] at h
      subst h
      intro x hx
      rcases Assoc.mem_modify _ _ _ x hx with hx | ⟨v, hv, rfl⟩
      · exact hg x hx
      · exact hSec _ v (hg _ hv)
  case AddRoadSectionLane r i l ty lv p su =>
    simp only [step, AddRoadSectionLane, Except.ok.injEq] at h
    cases hr : g.GetRoad r with
    | none =>
      simp only [hr] at h
      subst h
      exact hg
    | some road =>
      simp only [hr] at h
      by_cases hle : i ≥ road._lane_sections.length
      · simp only [hle, if_true] at h
        subst h
        exact hg
      · simp only [hle, if_false] at h
        subst h
        intro x hx
        rcases Assoc.mem_modify _ _ _ x hx with hx | ⟨v, hv, rfl⟩
        · exact hg x hx
        · exact hLane _ _ _ _ _ _ v (hg _ hv)
  case AddJunction i n =>
    simp only [step, AddJunction, Except.ok.injEq] at h
    subst h
    exact hg
  case AddConnection j c i co =>
    simp only [step, AddConnection] at h
    cases hj : g.GetJunction j with
    | none => simp [hj] at h
    | some jn =>
      simp only [hj, Except.ok.injEq] at h
      subst h
      exact hg
  case AddLaneLink j c f t =>
    simp only [step, AddLaneLink] at h
    cases hj : g.GetJunction j with
    | none => simp [hj] at h
    | some jn =>
      simp only [hj] at h
      cases hc : jn.GetConnection c with
      | none => simp [hc] at h
      | some cn =>
        simp only [hc, Except.ok.injEq] at h
        subst h
        exact hg
  all_goals
    simp only [step, AddRoadElevationProfile, CreateLaneAccess, CreateLaneBorder,
      CreateLaneHeight, CreateLaneMaterial, CreateLaneOffset, CreateLaneRule,
      CreateLaneVisibility, CreateLaneWidth, CreateRoadMarkTypeLine, CreateLaneSpeed,
      Except.ok.injEq] at h
    subst h
    exact hg

/-- The same over a sequence of ingestion calls. -/
theorem ingest_roads_forall (P : Road → Prop) (hnew : P Road.new)
    (hRoad : ∀ r n l j p s road, P road → P (AddRoad.write r n l j p s road))
    (hSec : ∀ c road, P road → P (AddRoadSection.write c road))
    (hLane : ∀ i l t lv p s road, P road → P (AddRoadSectionLane.write i l t lv p s road))
    (hSig : ∀ (road : Road) sigs, P road → P { road with _signals := sigs })
    (calls : List Event) (g g1 : MapData) (h : ingest g calls = Except.ok g1)
    (hg : ∀ x ∈ g._roads, P x.2) : ∀ x ∈ g1._roads, P x.2 := by
  induction calls generalizing g with
  | nil =>
    simp only [ingest, Except.ok.injEq] at h
    subst h
    exact hg
  | cons e rest ih =>
    simp only [ingest] at h
    cases hs : step g e with
    | error f => simp [hs] at h
    | ok g2 =>
      simp only [hs] at h
      exact ih g2 h (step_roads_forall P hnew hRoad hSec hLane hSig g g2 e hs hg)

end MapBuilder

namespace MapBuilder

/-- A call that is not `AddRoad` for `r` leaves `r` unknown when it was. -/
theorem getRoad_none_step (g g1 : MapData) (e : Event) (h : step g e = Except.ok g1)
    (r : Nat) (hr : g.GetRoad r = none)
    (hne : ∀ n l j p s, e ≠ Event.AddRoad r n l j p s) : g1.GetRoad r = none := by
  cases e
  case CreateRoadMark r ls l m s ty we co ma wi lc he tn tw =>
    simp [step, createRoadMark_error] at h
  case AddSignal r1 i s1 t na dy ori zo co ty su va un he wi te ho pi ro =>
    simp only [step, AddSignal] at h
    cases hr1 : g.GetRoad r1 with
    | none => simp [hr1] at h
    | some road =>
      simp only [hr1, Except.ok.injEq] at h
      subst h
      unfold MapData.GetRoad at hr ⊢
      simp only [Assoc.find_modify]
      by_cases hk : r = r1
      · subst hk
        simp [hr]
      · simp [hk, hr]
  case AddValidityToLastAddedSignal r1 i f t =>
    simp only [step, AddValidityToLastAddedSignal] at h
    cases hr1 : g.GetRoad r1 with
    | none => simp [hr1] at h
    | some road =>
      simp only [hr1] at h
      cases hs : Assoc.find i road._signals with
      | none => simp [hs] at h
      | some sig =>
        simp only [hs, Except.ok.injEq] at h
        subst h
        unfold MapData.GetRoad at hr ⊢
        simp only [Assoc.find_modify]
        by_cases hk : r = r1
        · subst hk
          simp [hr]
        · simp [hk, hr]
  case AddRoad r1 n len j p su =>
    simp only [step, Except.ok.injEq] at h
    subst h
    have hk : r ≠ r1 := by
      intro hk
      subst hk
      exact hne n len j p su rfl
    rw [getRoad_AddRoad, if_neg hk]
    exact hr
  case AddRoadSection r1 cubic =>
    simp only [step, Except.ok.injEq] at h
    subst h
    rw [getRoad_AddRoadSection]
    by_cases hk : r = r1
    · subst hk
      simp [hr]
    · simp [hk, hr]
  case AddRoadSectionLane r1 i l ty lv p su =>
    simp only [step, Except.ok.injEq] at h
    subst h
    rw [getRoad_AddRoadSectionLane]
    by_cases hk : r = r1
    · subst hk
      simp [hr]
    · simp [hk, hr]
  case AddJunction i n =>
    simp only [step, AddJunction, Except.ok.injEq] at h
    subst h
    exact hr
  case AddConnection j c i co =>
    simp only [step, AddConnection] at h
    cases hj : g.GetJunction j with
    | none => simp [hj] at h
    | some jn =>
      simp only [hj, Except.ok.injEq] at h
      subst h
      exact hr
  case AddLaneLink j c f t =>
    simp only [step, AddLaneLink] at h
    cases hj : g.GetJunction j with
    | none => simp [hj] at h
    | some jn =>
      simp only [hj] at h
      cases hc : jn.GetConnection c with
      | none => simp [hc] at h
      | some cn =>
        simp only [hc, Except.ok.injEq] at h
        subst h
        exact hr
  all_goals
    simp only [step, AddRoadElevationProfile, CreateLaneAccess, CreateLaneBorder,
      CreateLaneHeight, CreateLaneMaterial, CreateLaneOffset, CreateLaneRule,
      CreateLaneVisibility, CreateLaneWidth, CreateRoadMarkTypeLine, CreateLaneSpeed,
      Except.ok.injEq] at h
    subst h
    exact hr

/-- A road id that no `AddRoad` call of the sequence carries is unknown at the end when
it was at the start. -/
theorem getRoad_none_ingest (calls : List Event) (g g1 : MapData)
    (h : ingest g calls = Except.ok g1) (r : Nat) (hr : g.GetRoad r = none)
    (hne : ∀ n l j p s, Event.AddRoad r n l j p s ∉ calls) : g1.GetRoad r = none := by
  induction calls generalizing g with
  | nil =>
    simp only [ingest, Except.ok.injEq] at h
    subst h
    exact hr
  | cons e rest ih =>
    simp only [ingest] at h
    cases hs : step g e with
    | error f => simp [hs] at h
    | ok g2 =>
      simp only [hs] at h
      refine ih g2 h (getRoad_none_step g g2 e hs r hr ?_) ?_
      · intro n l j p s he
        exact hne n l j p s (he ▸ List.mem_cons_self _ _)
      · intro n l j p s hmem
        exact hne n l j p s (List.mem_cons_of_mem _ hmem)

end MapBuilder

/-! ## Soft failure and creation in the ingestion calls -/

namespace MapBuilder

/-- C1: `AddRoadSection` for a road id that is not in the graph, in particular one that
no `AddRoad` call of the ingestion so far has carried, creates no lane section and
returns the graph exactly as it was. -/
theorem addRoadSection_unknown_road (g : MapData) (road_id : Nat) (cubic : CubicPolynomial)
    (h : g.GetRoad road_id = none ∨
      ∃ calls, ingest MapData.empty calls = Except.ok g ∧
        ∀ n l j p s, Event.AddRoad road_id n l j p s ∉ calls) :
    AddRoadSection g road_id cubic = g := by
  have hnone : g.GetRoad road_id = none := by
    rcases h with h | ⟨calls, hc, hne⟩
    · exact h
    · exact getRoad_none_ingest calls MapData.empty g hc road_id rfl hne
  simp [AddRoadSection, hnone]

theorem addRoadSection_unknown_road_witness :
    (∃ calls, ingest MapData.empty calls =
          Except.ok (AddRoad MapData.empty 1 "R1" 100 (-1) (-1) 2) ∧
        ∀ n l j p s, Event.AddRoad 2 n l j p s ∉ calls) ∧
      AddRoadSection (AddRoad MapData.empty 1 "R1" 100 (-1) (-1) 2) 2 (Scenario.curveAt 0) =
        AddRoad MapData.empty 1 "R1" 100 (-1) (-1) 2 :=
  ⟨⟨[Event.AddRoad 1 "R1" 100 (-1) (-1) 2], rfl, fun n l j p s hm => by simp at hm⟩,
    addRoadSection_unknown_road _ 2 (Scenario.curveAt 0)
      (Or.inr ⟨[Event.AddRoad 1 "R1" 100 (-1) (-1) 2], rfl,
        fun n l j p s hm => by simp at hm⟩)⟩

/-- C5: on a graph without a road `road_id`, `AddRoad` inserts exactly one entry, the
road with the given id, name, length and junction id, with raw successor list
`[successor]`, raw predecessor list `[predecessor]` and no lane sections; the entries
before and after it, every other lookup and the junctions are unchanged. -/
theorem addRoad_new (g : MapData) (road_id : Nat) (name : String) (length : Rat)
    (junction_id predecessor successor : Int) (h : g.GetRoad road_id = none) :
    ∃ pre post road,
      road = ⟨road_id, name, length, junction_id, if junction_id ≠ -1 then true else false,
        [successor], [predecessor], [], []⟩ ∧
      g._roads = pre ++ post ∧
      (AddRoad g road_id name length junction_id predecessor successor)._roads =
        pre ++ (road_id, road) :: post ∧
      (AddRoad g road_id name length junction_id predecessor successor).GetRoad road_id =
        some road ∧
      (∀ other, other ≠ road_id →
        (AddRoad g road_id name length junction_id predecessor successor).GetRoad other =
          g.GetRoad other) ∧
      (AddRoad g road_id name length junction_id predecessor successor)._junctions =
        g._junctions := by
  unfold MapData.GetRoad at h
  obtain ⟨pre, post, h1, h2, -, -⟩ := Assoc.insertOrdered_split road_id Road.new g._roads
  have hpre : Assoc.find road_id pre = none := by
    rw [h1] at h
    exact (Assoc.find_append_none road_id pre post h).1
  have hroads : (AddRoad g road_id name length junction_id predecessor successor)._roads =
      pre ++ (road_id, ⟨road_id, name, length, junction_id,
        if junction_id ≠ -1 then true else false, [successor], [predecessor], [], []⟩) ::
        post := by
    simp only [AddRoad, Assoc.emplace, h, h2]
    rw [Assoc.modify_middle road_id _ Road.new pre post hpre]
    rfl
  refine ⟨pre, post, _, rfl, h1, hroads, ?_, ?_, rfl⟩
  · unfold MapData.GetRoad
    rw [hroads]
    exact Assoc.find_middle_self road_id _ pre post hpre
  · intro other hne
    unfold MapData.GetRoad
    rw [hroads, h1]
    exact Assoc.find_middle_ne road_id other _ pre post hne

theorem addRoad_new_witness :
    (AddRoad MapData.empty 1 "R1" 100 (-1) (-1) 2).GetRoad 2 = none ∧
      (AddRoad (AddRoad MapData.empty 1 "R1" 100 (-1) (-1) 2) 2 "R2" 50 (-1) 1 (-1)).GetRoad 2 =
        some ⟨2, "R2", 50, -1, false, [-1], [1], [], []⟩ := by
  refine ⟨rfl, ?_⟩
  obtain ⟨pre, post, road, hroad, -, -, hget, -, -⟩ :=
    addRoad_new (AddRoad MapData.empty 1 "R1" 100 (-1) (-1) 2) 2 "R2" 50 (-1) 1 (-1) rfl
  rw [hget, hroad]
  rfl

/-- C6: on a graph with road `road_id`, `AddRoadSection` inserts exactly one section into
that road: it is stored under the start offset of the curve, records that offset, holds
the curve as lane offset and has no lanes; it stands after every section whose key is
not greater and before the first section with a greater key; the earlier sections, the
other members of the road, every other road and the junctions are unchanged. -/
theorem addRoadSection_known_road (g : MapData) (road_id : Nat) (cubic : CubicPolynomial)
    (road : Road) (h : g.GetRoad road_id = some road) :
    ∃ rpre rpost spre spost road1,
      road1 = { road with _lane_sections :=
        spre ++ (cubic.GetS, ⟨cubic.GetS, cubic, []⟩) :: spost } ∧
      g._roads = rpre ++ (road_id, road) :: rpost ∧
      road._lane_sections = spre ++ spost ∧
      (∀ e ∈ spre, ¬ cubic.GetS < e.1) ∧ (∀ e, spost.head? = some e → cubic.GetS < e.1) ∧
      (AddRoadSection g road_id cubic)._roads = rpre ++ (road_id, road1) :: rpost ∧
      (AddRoadSection g road_id cubic).GetRoad road_id = some road1 ∧
      road1._lane_sections.length = road._lane_sections.length + 1 ∧
      (∀ other, other ≠ road_id →
        (AddRoadSection g road_id cubic).GetRoad other = g.GetRoad other) ∧
      (AddRoadSection g road_id cubic)._junctions = g._junctions := by
  obtain ⟨rpre, rpost, r1, r2, r3⟩ :=
    Assoc.modify_split road_id (AddRoadSection.write cubic) g._roads road h
  obtain ⟨spre, spost, s1, s2, s3, s4⟩ :=
    Assoc.insertOrdered_split cubic.GetS (AddRoadSection.section cubic) road._lane_sections
  have hroads : (AddRoadSection g road_id cubic)._roads = rpre ++ (road_id,
      { road with _lane_sections :=
        spre ++ (cubic.GetS, ⟨cubic.GetS, cubic, []⟩) :: spost }) :: rpost := by
    simp only [AddRoadSection, h]
    rw [r2]
    simp only [AddRoadSection.write, s2]
    rfl
  refine ⟨rpre, rpost, spre, spost, _, rfl, r1, s1, s3, s4, hroads, ?_, ?_, ?_, ?_⟩
  · unfold MapData.GetRoad
    rw [hroads]
    exact Assoc.find_middle_self road_id _ rpre rpost r3
  · simp [s1, Nat.add_assoc]
  · intro other hne
    unfold MapData.GetRoad
    rw [hroads, r1, Assoc.find_middle_ne road_id other _ rpre rpost hne,
      Assoc.find_middle_ne road_id other _ rpre rpost hne]
  · simp [AddRoadSection, h]

theorem addRoadSection_known_road_witness :
    (AddRoad MapData.empty 1 "R1" 100 (-1) (-1) 2).GetRoad 1 =
        some ⟨1, "R1", 100, -1, false, [2], [-1], [], []⟩ ∧
      ((AddRoadSection (AddRoad MapData.empty 1 "R1" 100 (-1) (-1) 2) 1
        (Scenario.curveAt 10)).GetRoad 1).map (fun r => r._lane_sections.length) = some 1 := by
  refine ⟨rfl, ?_⟩
  obtain ⟨rpre, rpost, spre, spost, road1, -, -, -, -, -, -, hget, hlen, -, -⟩ :=
    addRoadSection_known_road (AddRoad MapData.empty 1 "R1" 100 (-1) (-1) 2) 1
      (Scenario.curveAt 10) _ rfl
  rw [hget, Option.map_some', hlen]
  rfl

/-- C9: `AddRoadSectionLane` returns the graph unchanged when the road is not known, and
when the road is known but `section_index` is not below its number of lane sections. -/
theorem addRoadSectionLane_soft_fail (g : MapData) (road_id section_index : Nat)
    (lane_id : Int) (lane_type : String) (lane_level : Bool) (predecessor successor : Int)
    (h : g.GetRoad road_id = none ∨
      ∃ road, g.GetRoad road_id = some road ∧ road._lane_sections.length ≤ section_index) :
    AddRoadSectionLane g road_id section_index lane_id lane_type lane_level predecessor
      successor = g := by
  rcases h with h | ⟨road, h, hlen⟩
  · simp [AddRoadSectionLane, h]
  · simp [AddRoadSectionLane, h, hlen]

theorem addRoadSectionLane_soft_fail_witness :
    (∃ road, (AddRoad MapData.empty 1 "R1" 100 (-1) (-1) 2).GetRoad 1 = some road ∧
        road._lane_sections.length ≤ 0) ∧
      AddRoadSectionLane (AddRoad MapData.empty 1 "R1" 100 (-1) (-1) 2) 1 0 (-1) "driving"
        false 0 (-1) = AddRoad MapData.empty 1 "R1" 100 (-1) (-1) 2 :=
  ⟨⟨_, rfl, Nat.le_refl 0⟩,
    addRoadSectionLane_soft_fail _ 1 0 (-1) "driving" false 0 (-1)
      (Or.inr ⟨_, rfl, Nat.le_refl 0⟩)⟩

/-- C10: when road `road_id` is known, its section at position `section_index` exists
and has no lane `lane_id`, `AddRoadSectionLane` inserts into that section exactly one
lane, with the given id, type and level, whose successor slots are the single raw
identifier `successor` and whose predecessor slots are the single raw identifier
`predecessor`; the other lanes of the section, the other sections, the other members of
the road, every other road and the junctions are unchanged. -/
theorem addRoadSectionLane_new (g : MapData) (road_id section_index : Nat) (lane_id : Int)
    (lane_type : String) (lane_level : Bool) (predecessor successor : Int) (road : Road)
    (key : Rat) (sec : LaneSection) (h : g.GetRoad road_id = some road)
    (hsec : road._lane_sections[section_index]? = some (key, sec))
    (hlane : Assoc.find lane_id sec._lanes = none) :
    ∃ rpre rpost spre spost lpre lpost lane road1,
      lane = ⟨lane_id, lane_type, lane_level, [LanePtr.fromId successor],
        [LanePtr.fromId predecessor]⟩ ∧
      road1 = { road with _lane_sections :=
        spre ++ (key, { sec with _lanes := lpre ++ (lane_id, lane) :: lpost }) :: spost } ∧
      g._roads = rpre ++ (road_id, road) :: rpost ∧
      road._lane_sections = spre ++ (key, sec) :: spost ∧ spre.length = section_index ∧
      sec._lanes = lpre ++ lpost ∧
      (AddRoadSectionLane g road_id section_index lane_id lane_type lane_level predecessor
        successor)._roads = rpre ++ (road_id, road1) :: rpost ∧
      (AddRoadSectionLane g road_id section_index lane_id lane_type lane_level predecessor
        successor).lane road_id section_index lane_id = some lane ∧
      (∀ other, other ≠ road_id →
        (AddRoadSectionLane g road_id section_index lane_id lane_type lane_level
          predecessor successor).GetRoad other = g.GetRoad other) ∧
      (AddRoadSectionLane g road_id section_index lane_id lane_type lane_level predecessor
        successor)._junctions = g._junctions := by
  have hlt : section_index < road._lane_sections.length := by
    by_contra hge
    rw [List.getElem?_eq_none (Nat.le_of_not_lt hge)] at hsec
    exact Option.noConfusion hsec
  obtain ⟨lpre, lpost, l1, l2, -, -⟩ := Assoc.insertOrdered_split lane_id Lane.new sec._lanes
  have hlpre : Assoc.find lane_id lpre = none := by
    rw [l1] at hlane
    exact (Assoc.find_append_none lane_id lpre lpost hlane).1
  obtain ⟨spre, spost, s1, s2, s3⟩ := Assoc.modifyAt_split section_index
    (AddRoadSectionLane.inSection lane_id lane_type lane_level predecessor successor)
    road._lane_sections key sec hsec
  obtain ⟨rpre, rpost, r1, r2, r3⟩ := Assoc.modify_split road_id
    (AddRoadSectionLane.write section_index lane_id lane_type lane_level predecessor
      successor) g._roads road h
  have hroads : (AddRoadSectionLane g road_id section_index lane_id lane_type lane_level
      predecessor successor)._roads = rpre ++ (road_id, { road with _lane_sections :=
        spre ++ (key, { sec with _lanes := lpre ++ (lane_id,
          ⟨lane_id, lane_type, lane_level, [LanePtr.fromId successor],
            [LanePtr.fromId predecessor]⟩) :: lpost }) :: spost }) :: rpost := by
    simp only [AddRoadSectionLane, h, ge_iff_le, Nat.not_le.mpr hlt, if_false]
    rw [r2]
    simp only [AddRoadSectionLane.write, s3, AddRoadSectionLane.inSection, Assoc.emplace,
      hlane, l2]
    rw [Assoc.modify_middle lane_id _ Lane.new lpre lpost hlpre]
    rfl
  refine ⟨rpre, rpost, spre, spost, lpre, lpost, _, _, rfl, rfl, r1, s1, s2, l1, hroads,
    ?_, ?_, ?_⟩
  · unfold MapData.lane MapData.GetRoad
    rw [hroads, Assoc.find_middle_self road_id _ rpre rpost r3]
    simp only
    rw [← s2, Assoc.getElem?_middle]
    exact Assoc.find_middle_self lane_id _ lpre lpost hlpre
  · intro other hne
    unfold MapData.GetRoad
    rw [hroads, r1, Assoc.find_middle_ne road_id other _ rpre rpost hne,
      Assoc.find_middle_ne road_id other _ rpre rpost hne]
  · simp [AddRoadSectionLane, h, Nat.not_le.mpr hlt]

theorem addRoadSectionLane_new_witness :
    (AddRoadSection (AddRoad MapData.empty 1 "R1" 100 (-1) (-1) 2) 1
        (Scenario.curveAt 0)).GetRoad 1 =
        some ⟨1, "R1", 100, -1, false, [2], [-1],
          [(0, ⟨0, Scenario.curveAt 0, []⟩)], []⟩ ∧
      (AddRoadSectionLane (AddRoadSection (AddRoad MapData.empty 1 "R1" 100 (-1) (-1) 2) 1
        (Scenario.curveAt 0)) 1 0 (-1) "driving" false 0 (-1)).lane 1 0 (-1) =
        some ⟨-1, "driving", false, [LanePtr.fromId (-1)], [LanePtr.fromId 0]⟩ := by
  refine ⟨rfl, ?_⟩
  obtain ⟨rpre, rpost, spre, spost, lpre, lpost, lane, road1, hlane, -, -, -, -, -, -, hget,
      -, -⟩ :=
    addRoadSectionLane_new (AddRoadSection (AddRoad MapData.empty 1 "R1" 100 (-1) (-1) 2) 1
      (Scenario.curveAt 0)) 1 0 (-1) "driving" false 0 (-1) _ 0 ⟨0, Scenario.curveAt 0, []⟩
      rfl rfl rfl
  rw [hget, hlane]

/-! ## Lane links after `Build` -/

theorem rawLinks_new : RawLinks Road.new :=
  fun _ he => absurd he (List.not_mem_nil _)

theorem rawLinks_AddRoadSection (cubic : CubicPolynomial) (road : Road)
    (h : RawLinks road) : RawLinks (AddRoadSection.write cubic road) := by
  intro sec hsec
  rcases (Assoc.mem_insertOrdered _ _ _ sec).mp hsec with rfl | hsec
  · intro l hl
    exact absurd hl (List.not_mem_nil _)
  · exact h sec hsec

theorem rawLinks_setLane (lane_id : Int) (t : String) (lv : Bool) (p s : Int) (lane : Lane)
    (h : ∀ q ∈ lane._next_lanes ++ lane._prev_lanes, ∃ k, q = LanePtr.fromId k) :
    ∀ q ∈ (AddRoadSectionLane.setLane lane_id t lv p s lane)._next_lanes ++
      (AddRoadSectionLane.setLane lane_id t lv p s lane)._prev_lanes,
      ∃ k, q = LanePtr.fromId k := by
  intro q hq
  simp only [AddRoadSectionLane.setLane, List.mem_append, List.mem_singleton] at hq
  rcases hq with (hq | hq) | (hq | hq)
  · exact h q (List.mem_append_left _ hq)
  · exact ⟨s, hq⟩
  · exact h q (List.mem_append_right _ hq)
  · exact ⟨p, hq⟩

theorem rawLinks_AddRoadSectionLane (i : Nat) (lane_id : Int) (t : String) (lv : Bool)
    (p s : Int) (road : Road) (h : RawLinks road) :
    RawLinks (AddRoadSectionLane.write i lane_id t lv p s road) := by
  intro sec hsec
  rcases Assoc.mem_modifyAt _ _ _ sec hsec with hsec | ⟨v, hv, h2⟩
  · exact h sec hsec
  · intro l hl
    rw [h2] at hl
    rcases Assoc.mem_modify _ _ _ l hl with hl | ⟨lane, hlane, rfl⟩
    · rcases Assoc.mem_emplace _ _ _ l hl with rfl | hl
      · intro q hq
        simp [Lane.new] at hq
      · exact h _ hv l hl
    · refine rawLinks_setLane lane_id t lv p s lane ?_
      rcases Assoc.mem_emplace _ _ _ _ hlane with hnew | hlane
      · intro q hq
        have hl : lane = Lane.new := (Prod.mk.inj hnew).2
        simp [hl, Lane.new] at hq
      · exact h _ hv _ hlane

/-- After any sequence of ingestion calls and `Build`, every successor and predecessor
slot of every lane of the returned map holds an integer cast to a pointer, never the
address of a lane. -/
theorem run_links_stay_raw (total : List (Nat × Road) → Road → Rat) (calls : List Event)
    (m : Map) (h : run total calls = some m) :
    ∀ p ∈ m._data.laneLinks, ∃ k, p = LanePtr.fromId k := by
  unfold run at h
  cases hi : ingest MapData.empty calls with
  | error f => simp [hi] at h
  | ok g =>
    simp only [hi, Build, Option.some.injEq] at h
    subst h
    have hraw := ingest_roads_forall RawLinks rawLinks_new (fun _ _ _ _ _ _ _ h => h)
      rawLinks_AddRoadSection rawLinks_AddRoadSectionLane (fun _ _ h => h) calls
      MapData.empty g hi (fun _ hx => absurd hx (List.not_mem_nil _))
    intro p hp
    simp only [MapData.laneLinks, CreatePointersBetweenRoadSegments,
      SetTotalRoadSegmentLength, List.mem_flatMap, List.mem_map] at hp
    obtain ⟨r, ⟨r1, ⟨r0, hr0, rfl⟩, rfl⟩, sec, hsec, l, hl, hp⟩ := hp
    exact hraw r0 hr0 sec hsec l hl p hp


/-- C2: one road with sections at 0 and 10, each with a lane -1; the lane of the first
section has raw successor -1 and the lane of the second has raw predecessor -1. After
`Build` the adjacent sections do hold a lane -1, yet the successor slot and the
predecessor slot still hold the raw identifier -1 and not the address of that lane. -/
theorem build_keeps_raw_link_between_sections (total : List (Nat × Road) → Road → Rat) :
    ∃ m, run total Scenario.twoSections = some m ∧
      (m._data.lane 1 1 (-1)).isSome = true ∧
      (m._data.lane 1 0 (-1)).map (fun l => l._next_lanes) = some [LanePtr.fromId (-1)] ∧
      LanePtr.fromId (-1) ≠ LanePtr.toLane 1 1 (-1) ∧
      (m._data.lane 1 0 (-1)).isSome = true ∧
      (m._data.lane 1 1 (-1)).map (fun l => l._prev_lanes) = some [LanePtr.fromId (-1)] ∧
      LanePtr.fromId (-1) ≠ LanePtr.toLane 1 0 (-1) :=
  ⟨_, rfl, rfl, rfl, by decide, rfl, rfl, by decide⟩

/-- C3: the scenario of two chained roads. After `Build` road 2 holds lane -1 in its
section 0, yet the successor slot of lane -1 in section 0 of road 1 still holds the raw
identifier -1 and not the address of that lane. -/
theorem build_keeps_raw_link_between_roads (total : List (Nat × Road) → Road → Rat) :
    ∃ m, run total Scenario.twoRoads = some m ∧
      (m._data.GetRoad 1).map (fun r => r._nexts) = some [2] ∧
      (m._data.lane 2 0 (-1)).isSome = true ∧
      (m._data.lane 1 0 (-1)).map (fun l => l._next_lanes) = some [LanePtr.fromId (-1)] ∧
      LanePtr.fromId (-1) ≠ LanePtr.toLane 2 0 (-1) :=
  ⟨_, rfl, rfl, rfl, rfl, by decide⟩

/-- C4: a lane whose raw successor 7 matches nothing. After `Build` its successor slot
holds the raw identifier 7, which is neither the null pointer nor the address of a lane
of the returned map. -/
theorem build_exposes_raw_identifier (total : List (Nat × Road) → Road → Rat) :
    ∃ m, run total Scenario.strayLink = some m ∧
      m._data.laneLinks = [LanePtr.fromId 7, LanePtr.fromId 0] ∧
      m._data.soundLink (LanePtr.fromId 7) = false ∧
      m._data.laneLinks.all m._data.soundLink = false :=
  ⟨_, rfl, rfl, rfl, rfl⟩

/-! ## The lane sections of a road across the ingestion calls -/

theorem orderedSections_new : OrderedSections Road.new :=
  ⟨List.Pairwise.nil, fun _ he => absurd he (List.not_mem_nil _)⟩

theorem orderedSections_AddRoadSection (cubic : CubicPolynomial) (road : Road)
    (h : OrderedSections road) : OrderedSections (AddRoadSection.write cubic road) := by
  refine ⟨Assoc.insertOrdered_sorted _ _ _ h.1, ?_⟩
  intro e he
  rcases (Assoc.mem_insertOrdered _ _ _ e).mp he with rfl | he
  · rfl
  · exact h.2 e he

theorem orderedSections_AddRoadSectionLane (i : Nat) (l : Int) (t : String) (lv : Bool)
    (p s : Int) (road : Road) (h : OrderedSections road) :
    OrderedSections (AddRoadSectionLane.write i l t lv p s road) := by
  refine ⟨?_, ?_⟩
  · unfold AddRoadSectionLane.write
    simp only [Assoc.map_fst_modifyAt]
    exact h.1
  · intro e he
    rcases Assoc.mem_modifyAt _ _ _ e he with he | ⟨v, hv, h2⟩
    · exact h.2 e he
    · rw [h2]
      exact h.2 _ hv

theorem ingest_orderedSections (calls : List Event) (g : MapData)
    (h : ingest MapData.empty calls = Except.ok g) (road_id : Nat) (road : Road)
    (hr : g.GetRoad road_id = some road) : OrderedSections road :=
  ingest_roads_forall OrderedSections orderedSections_new (fun _ _ _ _ _ _ _ h => h)
    orderedSections_AddRoadSection orderedSections_AddRoadSectionLane (fun _ _ h => h)
    calls MapData.empty g h (fun _ hx => absurd hx (List.not_mem_nil _)) (road_id, road)
    (Assoc.mem_of_find road_id road g._roads hr)

theorem sectionKeys_AddRoadSection (g : MapData) (road_id : Nat) (cubic : CubicPolynomial)
    (road : Road) (h : g.GetRoad road_id = some road) :
    (AddRoadSection g road_id cubic).sectionKeys road_id =
      (Assoc.insertOrdered cubic.GetS (AddRoadSection.section cubic)
        road._lane_sections).map Prod.fst := by
  unfold MapData.sectionKeys
  rw [getRoad_AddRoadSection, if_pos rfl, h]
  rfl

theorem count_sectionKeys_AddRoadSection (g : MapData) (road_id : Nat)
    (cubic : CubicPolynomial) (h : g.GetRoad road_id ≠ none) :
    ((AddRoadSection g road_id cubic).sectionKeys road_id).count cubic.GetS =
      (g.sectionKeys road_id).count cubic.GetS + 1 := by
  cases hr : g.GetRoad road_id with
  | none => exact absurd hr h
  | some road =>
    rw [sectionKeys_AddRoadSection g road_id cubic road hr]
    obtain ⟨pre, post, h1, h2⟩ := Assoc.map_fst_insertOrdered cubic.GetS
      (AddRoadSection.section cubic) road._lane_sections
    have hk : g.sectionKeys road_id = pre ++ post := by
      unfold MapData.sectionKeys
      rw [hr]
      exact h1
    rw [h2, hk]
    simp only [List.count_append, List.count_cons_self]
    omega

/-- C7, as the code has it: after any sequence of ingestion calls the lane sections of
every road are in non-decreasing order of start offset, each stored under its own start
offset; equal offsets are kept, so that two further `AddRoadSection` calls on the road
with curves of equal start offset leave two more sections with that offset. -/
theorem sections_ordered_by_offset (calls : List Event) (g : MapData)
    (h : ingest MapData.empty calls = Except.ok g) (road_id : Nat) (road : Road)
    (hr : g.GetRoad road_id = some road) :
    (road._lane_sections.map (fun e => e.2._s)).Pairwise (fun a b => a ≤ b) ∧
      (∀ e ∈ road._lane_sections, e.2._s = e.1) ∧
      ∀ c1 c2 : CubicPolynomial, c1.GetS = c2.GetS →
        ((AddRoadSection (AddRoadSection g road_id c1) road_id c2).sectionKeys
          road_id).count c1.GetS = (g.sectionKeys road_id).count c1.GetS + 2 := by
  have ho := ingest_orderedSections calls g h road_id road hr
  refine ⟨?_, ho.2, ?_⟩
  · have hmap : road._lane_sections.map (fun e => e.2._s) =
        road._lane_sections.map Prod.fst := List.map_congr_left ho.2
    rw [hmap]
    exact ho.1
  · intro c1 c2 hc
    have h1 : g.GetRoad road_id ≠ none := by simp [hr]
    have h2 : (AddRoadSection g road_id c1).GetRoad road_id ≠ none := by
      rw [getRoad_AddRoadSection, if_pos rfl, hr]
      simp
    rw [hc, count_sectionKeys_AddRoadSection _ road_id c2 h2, ← hc,
      count_sectionKeys_AddRoadSection g road_id c1 h1]

theorem sections_ordered_by_offset_witness :
    (ingest MapData.empty Scenario.equalOffsets).toOption.bind (fun g => g.GetRoad 1) =
        some ⟨1, "R1", 100, -1, false, [-1], [-1],
          [(0, ⟨0, Scenario.curveAt 0, []⟩), (0, ⟨0, Scenario.curveAt 0, []⟩)], []⟩ ∧
      ([((0 : Rat), (⟨0, Scenario.curveAt 0, []⟩ : LaneSection)),
        (0, ⟨0, Scenario.curveAt 0, []⟩)].map (fun e => e.2._s)).Pairwise
          (fun a b => a ≤ b) :=
  ⟨rfl, (sections_ordered_by_offset Scenario.equalOffsets _ rfl 1 _ rfl).1⟩

/-- C7 as stated fails: after `AddRoad` for road 1 and two `AddRoadSection` calls with
start offset 0, road 1 has two sections with start offset 0, which are not strictly
increasing. -/
theorem equal_offsets_two_sections :
    ∃ g road, ingest MapData.empty Scenario.equalOffsets = Except.ok g ∧
      g.GetRoad 1 = some road ∧
      road._lane_sections.map (fun e => e.2._s) = [0, 0] ∧
      ¬ (road._lane_sections.map (fun e => e.2._s)).Pairwise (fun a b => a < b) :=
  ⟨_, _, rfl, rfl, rfl, by decide⟩

theorem sectionKeys_modify (g : MapData) (k : Nat) (f : Road → Road) (js : List (Int × Junction))
    (hf : ∀ road, (f road)._lane_sections = road._lane_sections) (r : Nat) :
    MapData.sectionKeys ⟨Assoc.modify k f g._roads, js⟩ r = g.sectionKeys r := by
  unfold MapData.sectionKeys MapData.GetRoad
  simp only [Assoc.find_modify]
  by_cases h : r = k
  · subst h
    cases hr : Assoc.find r g._roads with
    | none => simp
    | some road => simp [hf]
  · simp [h]

theorem sectionKeys_AddRoad (g : MapData) (road_id : Nat) (name : String) (length : Rat)
    (junction_id predecessor successor : Int) (r : Nat) :
    (AddRoad g road_id name length junction_id predecessor successor).sectionKeys r =
      g.sectionKeys r := by
  unfold MapData.sectionKeys
  rw [getRoad_AddRoad]
  by_cases h : r = road_id
  · subst h
    cases hr : g.GetRoad r with
    | none => simp [AddRoad.write, Road.new]
    | some road => simp [AddRoad.write]
  · simp [h]

theorem sectionKeys_AddRoadSection_other (g : MapData) (road_id : Nat)
    (cubic : CubicPolynomial) (r : Nat) (h : r ≠ road_id ∨ g.GetRoad road_id = none) :
    (AddRoadSection g road_id cubic).sectionKeys r = g.sectionKeys r := by
  unfold MapData.sectionKeys
  rw [getRoad_AddRoadSection]
  by_cases hk : r = road_id
  · subst hk
    rcases h with h | h
    · exact absurd rfl h
    · simp [h]
  · simp [hk]

theorem sectionKeys_AddRoadSectionLane (g : MapData) (road_id section_index : Nat)
    (lane_id : Int) (lane_type : String) (lane_level : Bool) (predecessor successor : Int)
    (r : Nat) :
    (AddRoadSectionLane g road_id section_index lane_id lane_type lane_level predecessor
      successor).sectionKeys r = g.sectionKeys r := by
  unfold MapData.sectionKeys
  rw [getRoad_AddRoadSectionLane]
  by_cases h : r = road_id
  · subst h
    cases hr : g.GetRoad r with
    | none => simp
    | some road => simp [AddRoadSectionLane.write, Assoc.map_fst_modifyAt]
  · simp [h]

/-- One ingestion call adds the start offset `s` to the keys of road `r` exactly when it
is an `AddRoadSection` call for `r`, known at that moment, with a curve starting at `s`;
no call removes a key. -/
theorem mem_sectionKeys_step (g g1 : MapData) (e : Event) (h : step g e = Except.ok g1)
    (r : Nat) (s : Rat) :
    s ∈ g1.sectionKeys r ↔ s ∈ g.sectionKeys r ∨
      ∃ cubic, e = Event.AddRoadSection r cubic ∧ cubic.GetS = s ∧ g.GetRoad r ≠ none := by
  cases e
  case CreateRoadMark r ls l m s ty we co ma wi lc he tn tw =>
    simp [step, createRoadMark_error] at h
  case AddSignal r1 i s1 t na dy ori zo co ty su va un he wi te ho pi ro =>
    simp only [step, AddSignal] at h
    cases hr : g.GetRoad r1 with
    | none => simp [hr] at h
    | some road =>
      simp only [hr, Except.ok.injEq] at h
      subst h
      rw [sectionKeys_modify g r1]
      · simp
      · intro road
        rfl
  case AddValidityToLastAddedSignal r1 i f t =>
    simp only [step, AddValidityToLastAddedSignal] at h
    cases hr : g.GetRoad r1 with
    | none => simp [hr] at h
    | some road =>
      simp only [hr] at h
      cases hs : Assoc.find i road._signals with
      | none => simp [hs] at h
      | some sig =>
        simp only [hs, Except.ok.injEq] at h
        subst h
        rw [sectionKeys_modify g r1]
        · simp
        · intro road
          rfl
  case AddRoad r1 n len j p su =>
    simp only [step, Except.ok.injEq] at h
    subst h
    rw [sectionKeys_AddRoad]
    simp
  case AddRoadSection r1 cubic =>
    simp only [step, Except.ok.injEq] at h
    subst h
    by_cases hk : r = r1
    · subst hk
      cases hr : g.GetRoad r with
      | none =>
        rw [sectionKeys_AddRoadSection_other g r cubic r (Or.inr hr)]
        simp
      | some road =>
        rw [sectionKeys_AddRoadSection g r cubic road hr]
        have hkeys : g.sectionKeys r = road._lane_sections.map Prod.fst := by
          unfold MapData.sectionKeys
          rw [hr]
        rw [hkeys]
        constructor
        · intro hs
          obtain ⟨x, hx, rfl⟩ := List.mem_map.mp hs
          rcases (Assoc.mem_insertOrdered _ _ _ x).mp hx with rfl | hx
          · exact Or.inr ⟨cubic, rfl, rfl, by simp⟩
          · exact Or.inl (List.mem_map_of_mem _ hx)
        · rintro (hs | ⟨c, hc, rfl, -⟩)
          · obtain ⟨x, hx, rfl⟩ := List.mem_map.mp hs
            exact List.mem_map_of_mem _ ((Assoc.mem_insertOrdered _ _ _ x).mpr (Or.inr hx))
          · simp only [Event.AddRoadSection.injEq, true_and] at hc
            subst hc
            exact List.mem_map.mpr ⟨(cubic.GetS, AddRoadSection.section cubic),
              (Assoc.mem_insertOrdered _ _ _ _).mpr (Or.inl rfl), rfl⟩
    · rw [sectionKeys_AddRoadSection_other g r1 cubic r (Or.inl hk)]
      have hk2 : ¬ r1 = r := fun h => hk h.symm
      simp [hk2]
  case AddRoadSectionLane r1 i l ty lv p su =>
    simp only [step, Except.ok.injEq] at h
    subst h
    rw [sectionKeys_AddRoadSectionLane]
    simp
  case AddJunction i n =>
    simp only [step, AddJunction, Except.ok.injEq] at h
    subst h
    simp [MapData.sectionKeys, MapData.GetRoad]
  case AddConnection j c i co =>
    simp only [step, AddConnection] at h
    cases hj : g.GetJunction j with
    | none => simp [hj] at h
    | some jn =>
      simp only [hj, Except.ok.injEq] at h
      subst h
      simp [MapData.sectionKeys, MapData.GetRoad]
  case AddLaneLink j c f t =>
    simp only [step, AddLaneLink] at h
    cases hj : g.GetJunction j with
    | none => simp [hj] at h
    | some jn =>
      simp only [hj] at h
      cases hc : jn.GetConnection c with
      | none => simp [hc] at h
      | some cn =>
        simp only [hc, Except.ok.injEq] at h
        subst h
        simp [MapData.sectionKeys, MapData.GetRoad]
  all_goals
    simp only [step, AddRoadElevationProfile, CreateLaneAccess, CreateLaneBorder,
      CreateLaneHeight, CreateLaneMaterial, CreateLaneOffset, CreateLaneRule,
      CreateLaneVisibility, CreateLaneWidth, CreateRoadMarkTypeLine, CreateLaneSpeed,
      Except.ok.injEq] at h
    subst h
    simp

/-- Over a sequence of ingestion calls: the keys of road `r` at the end are those at the
start and the start offsets of the `AddRoadSection` calls made for `r` while it was
known. -/
theorem mem_sectionKeys_ingest (calls : List Event) (g0 g : MapData)
    (h : ingest g0 calls = Except.ok g) (r : Nat) (s : Rat) :
    s ∈ g.sectionKeys r ↔ s ∈ g0.sectionKeys r ∨
      ∃ before cubic after g1, calls = before ++ Event.AddRoadSection r cubic :: after ∧
        cubic.GetS = s ∧ ingest g0 before = Except.ok g1 ∧ g1.GetRoad r ≠ none := by
  induction calls generalizing g0 with
  | nil =>
    simp only [ingest, Except.ok.injEq] at h
    subst h
    simp
  | cons e rest ih =>
    simp only [ingest] at h
    cases hs : step g0 e with
    | error f => simp [hs] at h
    | ok g2 =>
      simp only [hs] at h
      have hstep := mem_sectionKeys_step g0 g2 e hs r s
      have hrest := ih g2 h
      constructor
      · intro hmem
        rcases hrest.mp hmem with h2 | ⟨b, c, a, g1, hb, hc, hi, hk⟩
        · rcases hstep.mp h2 with h0 | ⟨c, he, hc, hk⟩
          · exact Or.inl h0
          · exact Or.inr ⟨[], c, rest, g0, by simp [he], hc, rfl, hk⟩
        · refine Or.inr ⟨e :: b, c, a, g1, by simp [hb], hc, ?_, hk⟩
          simp only [ingest, hs]
          exact hi
      · rintro (h0 | ⟨b, c, a, g1, hb, hc, hi, hk⟩)
        · exact hrest.mpr (Or.inl (hstep.mpr (Or.inl h0)))
        · cases b with
          | nil =>
            simp only [List.nil_append, List.cons.injEq] at hb
            simp only [ingest, Except.ok.injEq] at hi
            subst hi
            exact hrest.mpr (Or.inl (hstep.mpr (Or.inr ⟨c, hb.1, hc, hk⟩)))
          | cons b0 b =>
            simp only [List.cons_append, List.cons.injEq] at hb
            obtain ⟨hb0, hb⟩ := hb
            subst hb0
            simp only [ingest, hs] at hi
            exact hrest.mpr (Or.inr ⟨b, c, a, g1, hb, hc, hi, hk⟩)

/-- C8, as the code has it: after any sequence of ingestion calls a road has a lane
section with start offset `s` (so also with `s = 0`) exactly when the sequence holds an
`AddRoadSection` call for that road, made while the road was known, whose curve starts
at `s`. No section at 0 is created otherwise. -/
theorem section_at_offset_iff_added (calls : List Event) (g : MapData)
    (h : ingest MapData.empty calls = Except.ok g) (road_id : Nat) (s : Rat) :
    (∃ road sec, g.GetRoad road_id = some road ∧ sec ∈ road._lane_sections ∧ sec.2._s = s) ↔
      ∃ before cubic after g1,
        calls = before ++ Event.AddRoadSection road_id cubic :: after ∧ cubic.GetS = s ∧
        ingest MapData.empty before = Except.ok g1 ∧ g1.GetRoad road_id ≠ none := by
  have hkeys : (∃ road sec, g.GetRoad road_id = some road ∧ sec ∈ road._lane_sections ∧
      sec.2._s = s) ↔ s ∈ g.sectionKeys road_id := by
    unfold MapData.sectionKeys
    constructor
    · rintro ⟨road, sec, hr, hsec, hs⟩
      rw [hr]
      have ho := ingest_orderedSections calls g h road_id road hr
      exact List.mem_map.mpr ⟨sec, hsec, by rw [← ho.2 sec hsec, hs]⟩
    · intro hs
      cases hr : g.GetRoad road_id with
      | none => simp [hr] at hs
      | some road =>
        rw [hr] at hs
        obtain ⟨sec, hsec, rfl⟩ := List.mem_map.mp hs
        have ho := ingest_orderedSections calls g h road_id road hr
        exact ⟨road, sec, rfl, hsec, ho.2 sec hsec⟩
  rw [hkeys, mem_sectionKeys_ingest calls MapData.empty g h road_id s]
  simp [MapData.sectionKeys, MapData.GetRoad, MapData.empty, Assoc.find]

theorem section_at_offset_iff_added_witness :
    ingest MapData.empty Scenario.lateSection =
        Except.ok (AddRoadSection (AddRoad MapData.empty 1 "R1" 100 (-1) (-1) (-1)) 1
          (Scenario.curveAt 10)) ∧
      ∃ road sec, (AddRoadSection (AddRoad MapData.empty 1 "R1" 100 (-1) (-1) (-1)) 1
          (Scenario.curveAt 10)).GetRoad 1 = some road ∧
        sec ∈ road._lane_sections ∧ sec.2._s = 10 :=
  ⟨rfl, (section_at_offset_iff_added Scenario.lateSection _ rfl 1 10).mpr
    ⟨[Event.AddRoad 1 "R1" 100 (-1) (-1) (-1)], Scenario.curveAt 10, [], _, rfl, rfl, rfl,
      by decide⟩⟩

/-- C8 as stated fails: after `AddRoad` for road 1 and one `AddRoadSection` call with
start offset 10, road 1 has a lane section and none with start offset 0. -/
theorem sections_without_offset_zero :
    ∃ g road, ingest MapData.empty Scenario.lateSection = Except.ok g ∧
      g.GetRoad 1 = some road ∧ road._lane_sections.length = 1 ∧
      ∀ sec ∈ road._lane_sections, sec.2._s ≠ 0 :=
  ⟨_, _, rfl, rfl, rfl, by decide⟩

end MapBuilder

/-! ## A road id added again -/

namespace Assoc

variable {K V : Type}

theorem find_split [DecidableEq K] (k : K) (m : List (K × V)) (v : V)
    (h : find k m = some v) :
    ∃ pre post, m = pre ++ (k, v) :: post ∧ find k pre = none := by
  obtain ⟨pre, post, h1, -, h3⟩ := modify_split k id m v h
  exact ⟨pre, post, h1, h3⟩

theorem key_ne_of_find_none [DecidableEq K] (k : K) (m : List (K × V))
    (h : find k m = none) : ∀ e ∈ m, e.1 ≠ k := by
  induction m with
  | nil => intro e he; exact absurd he (List.not_mem_nil _)
  | cons a m ih =>
    obtain ⟨k1, v1⟩ := a
    by_cases hk : k1 = k
    · simp [find, hk] at h
    · simp only [find, hk, if_false] at h
      intro e he
      rcases List.mem_cons.mp he with rfl | he
      · exact hk
      · exact ih h e he

end Assoc

namespace MapBuilder

/-- C12, as the code has it: on a graph that holds road `road_id`, a further `AddRoad`
with that id inserts no second road; it overwrites the id, name, length, junction id and
junction flag of the road with the new arguments, appends the new successor and
predecessor after the raw entries already stored, and keeps the lane sections and the
signals; every other road and the junctions are unchanged. -/
theorem addRoad_existing (g : MapData) (road_id : Nat) (name : String) (length : Rat)
    (junction_id predecessor successor : Int) (road : Road)
    (h : g.GetRoad road_id = some road) :
    ∃ pre post road1,
      road1 = ⟨road_id, name, length, junction_id, if junction_id ≠ -1 then true else false,
        road._nexts ++ [successor], road._prevs ++ [predecessor], road._lane_sections,
        road._signals⟩ ∧
      g._roads = pre ++ (road_id, road) :: post ∧
      (AddRoad g road_id name length junction_id predecessor successor)._roads =
        pre ++ (road_id, road1) :: post ∧
      (AddRoad g road_id name length junction_id predecessor successor).GetRoad road_id =
        some road1 ∧
      (∀ other, other ≠ road_id →
        (AddRoad g road_id name length junction_id predecessor successor).GetRoad other =
          g.GetRoad other) ∧
      (AddRoad g road_id name length junction_id predecessor successor)._junctions =
        g._junctions := by
  unfold MapData.GetRoad at h
  obtain ⟨pre, post, h1, h2, h3⟩ := Assoc.modify_split road_id
    (AddRoad.write road_id name length junction_id predecessor successor) g._roads road h
  have hroads : (AddRoad g road_id name length junction_id predecessor successor)._roads =
      pre ++ (road_id, ⟨road_id, name, length, junction_id,
        if junction_id ≠ -1 then true else false, road._nexts ++ [successor],
        road._prevs ++ [predecessor], road._lane_sections, road._signals⟩) :: post := by
    simp only [AddRoad, Assoc.emplace, h]
    rw [h2]
    rfl
  refine ⟨pre, post, _, rfl, h1, hroads, ?_, ?_, rfl⟩
  · unfold MapData.GetRoad
    rw [hroads]
    exact Assoc.find_middle_self road_id _ pre post h3
  · intro other hne
    unfold MapData.GetRoad
    rw [hroads, h1, Assoc.find_middle_ne road_id other _ pre post hne,
      Assoc.find_middle_ne road_id other _ pre post hne]

theorem addRoad_existing_witness :
    (AddRoad MapData.empty 1 "R1" 100 (-1) (-1) 2).GetRoad 1 =
        some ⟨1, "R1", 100, -1, false, [2], [-1], [], []⟩ ∧
      (AddRoad (AddRoad MapData.empty 1 "R1" 100 (-1) (-1) 2) 1 "X" 5 3 7 8).GetRoad 1 =
        some ⟨1, "X", 5, 3, true, [2, 8], [-1, 7], [], []⟩ := by
  refine ⟨rfl, ?_⟩
  obtain ⟨pre, post, road1, hroad, -, -, hget, -, -⟩ :=
    addRoad_existing (AddRoad MapData.empty 1 "R1" 100 (-1) (-1) 2) 1 "X" 5 3 7 8 _ rfl
  rw [hget, hroad]
  rfl

/-- C12 as stated fails: after `AddRoad(1, "R1", 100, -1, -1, 2)` a further
`AddRoad(1, "X", 5, 3, 7, 8)` leaves one road 1 whose name, length and junction id are
those of the second call. -/
theorem second_addRoad_overwrites :
    ∃ g road, ingest MapData.empty Scenario.roadAddedTwice = Except.ok g ∧
      g._roads.length = 1 ∧ g.GetRoad 1 = some road ∧
      road._name = "X" ∧ road._name ≠ "R1" ∧
      road._length = 5 ∧ road._length ≠ 100 ∧
      road._junction_id = 3 ∧ road._junction_id ≠ -1 :=
  ⟨_, _, rfl, rfl, rfl, rfl, by decide, rfl, by decide, rfl, by decide⟩

/-! ## Attribute-attachment calls -/

/-- An attribute-attachment call returns the graph unchanged, except `CreateRoadMark`,
which raises. -/
theorem step_attribute (g : MapData) (e : Event) (h : e.isAttribute = true) :
    step g e = if e.isRoadMark = true then Except.error (Fault.runtimeError "not implemented")
      else Except.ok g := by
  cases e <;> first | rfl | exact absurd h Bool.false_ne_true

/-- C13: `CreateRoadMark` addressed to a road that does not exist raises the runtime
error "not implemented" instead of returning; every attribute-attachment call either is
`CreateRoadMark` and raises, or returns the graph unchanged. -/
theorem createRoadMark_raises (g : MapData) (e : Event) :
    step MapData.empty (Event.CreateRoadMark 1 0 (-1) 0 0 "solid" "standard" "white"
        "standard" 0 "both" 0 "" 0) = Except.error (Fault.runtimeError "not implemented") ∧
      (e.isAttribute = false ∨
        (e.isRoadMark = true ∧
          step g e = Except.error (Fault.runtimeError "not implemented")) ∨
        (e.isRoadMark = false ∧ step g e = Except.ok g)) := by
  refine ⟨rfl, ?_⟩
  cases ha : e.isAttribute with
  | false => exact Or.inl rfl
  | true =>
    have hs := step_attribute g e ha
    cases hr : e.isRoadMark with
    | false =>
      rw [hr] at hs
      exact Or.inr (Or.inr ⟨rfl, hs⟩)
    | true =>
      rw [hr] at hs
      exact Or.inr (Or.inl ⟨rfl, hs⟩)

/-- C14: `CreateLaneWidth` and `AddRoadElevationProfile` return the graph exactly as it
was: the value built from the parameters is attached nowhere. On the graph that holds
lane -1 in section 0 of road 1, the lane after `CreateLaneWidth(1, 0, -1, 0, 3, 0, 0, 0)`
is the lane as `AddRoadSectionLane` left it. -/
theorem attribute_value_discarded (g : MapData) (road_id lane_section_id lane_id : Int)
    (s a b c d : Rat) :
    CreateLaneWidth g road_id lane_section_id lane_id s a b c d = g ∧
      AddRoadElevationProfile g road_id s a b c d = g ∧
      Scenario.oneLane.lane 1 0 (-1) =
        some ⟨-1, "driving", false, [LanePtr.fromId 0], [LanePtr.fromId 0]⟩ ∧
      (CreateLaneWidth Scenario.oneLane 1 0 (-1) 0 3 0 0 0).lane 1 0 (-1) =
        some ⟨-1, "driving", false, [LanePtr.fromId 0], [LanePtr.fromId 0]⟩ :=
  ⟨rfl, rfl, rfl, rfl⟩

/-- C15: two attribute-attachment calls made in either order have the same outcome, and
when they return the graph is the graph before them, so that every lane holds what it
held. -/
theorem attribute_calls_commute (g : MapData) (e1 e2 : Event) (h1 : e1.isAttribute = true)
    (h2 : e2.isAttribute = true) :
    ingest g [e1, e2] = ingest g [e2, e1] ∧
      ∀ g1, ingest g [e1, e2] = Except.ok g1 → g1 = g := by
  cases hr1 : e1.isRoadMark <;> cases hr2 : e2.isRoadMark <;>
    simp [ingest, step_attribute _ _ h1, step_attribute _ _ h2, hr1, hr2]

theorem attribute_calls_commute_witness :
    (Event.CreateLaneWidth 1 0 (-1) 0 3 0 0 0).isAttribute = true ∧
      (Event.CreateLaneSpeed 1 0 (-1) 0 50 "km/h").isAttribute = true ∧
      ingest Scenario.oneLane
          [Event.CreateLaneWidth 1 0 (-1) 0 3 0 0 0,
            Event.CreateLaneSpeed 1 0 (-1) 0 50 "km/h"] =
        ingest Scenario.oneLane
          [Event.CreateLaneSpeed 1 0 (-1) 0 50 "km/h",
            Event.CreateLaneWidth 1 0 (-1) 0 3 0 0 0] :=
  ⟨rfl, rfl, (attribute_calls_commute Scenario.oneLane
    (Event.CreateLaneWidth 1 0 (-1) 0 3 0 0 0) (Event.CreateLaneSpeed 1 0 (-1) 0 50 "km/h")
    rfl rfl).1⟩

/-! ## Junctions, connections and lane links -/

theorem addConnection_unknown_junction (g : MapData) (j c i co : Int)
    (h : g.GetJunction j = none) : AddConnection g j c i co = Except.error Fault.nullDereference := by
  simp [AddConnection, h]

theorem addLaneLink_unknown_junction (g : MapData) (j c f t : Int)
    (h : g.GetJunction j = none) : AddLaneLink g j c f t = Except.error Fault.nullDereference := by
  simp [AddLaneLink, h]

theorem addLaneLink_unknown_connection (g : MapData) (j c f t : Int) (jn : Junction)
    (h : g.GetJunction j = some jn) (hc : jn.GetConnection c = none) :
    AddLaneLink g j c f t = Except.error Fault.nullDereference := by
  simp [AddLaneLink, h, hc]

/-- C16: for a connection `c` that exists in junction `j`, `AddLaneLink(j, c, f, t)`
appends the pair `(f, t)` at the end of the lane links of that connection and changes
nothing else in the graph; the calls `AddJunction(10, "J")`, `AddConnection(10, 1, 5, 6)`,
`AddLaneLink(10, 1, -1, 1)`, `AddLaneLink(10, 1, -2, 2)` leave in junction 10 the
connection 1 with incoming road 5, connecting road 6 and lane links
`[(-1, 1), (-2, 2)]`. -/
theorem addLaneLink_appends (g : MapData) (j c f t : Int) (jn : Junction) (con : Connection)
    (hj : g.GetJunction j = some jn) (hc : jn.GetConnection c = some con) :
    (∃ jpre jpost cpre cpost,
      g._junctions = jpre ++ (j, jn) :: jpost ∧ jn._connections = cpre ++ (c, con) :: cpost ∧
      AddLaneLink g j c f t = Except.ok ⟨g._roads, jpre ++ (j, ⟨jn._id, jn._name,
        cpre ++ (c, ⟨con._id, con._incoming_road, con._connecting_road,
          con._lane_links ++ [(f, t)]⟩) :: cpost⟩) :: jpost⟩) ∧
      ingest MapData.empty Scenario.junctionLinks =
        Except.ok ⟨[], [(10, ⟨10, "J", [(1, ⟨1, 5, 6, [(-1, 1), (-2, 2)]⟩)]⟩)]⟩ := by
  refine ⟨?_, rfl⟩
  have hj1 := hj
  have hc1 := hc
  unfold MapData.GetJunction at hj1
  unfold Junction.GetConnection at hc1
  obtain ⟨jpre, jpost, j1, j3⟩ := Assoc.find_split j g._junctions jn hj1
  obtain ⟨cpre, cpost, c1, c3⟩ := Assoc.find_split c jn._connections con hc1
  refine ⟨jpre, jpost, cpre, cpost, j1, c1, ?_⟩
  simp only [AddLaneLink, hj, hc]
  rw [j1, Assoc.modify_middle j _ jn jpre jpost j3]
  simp only [c1]
  rw [Assoc.modify_middle c _ con cpre cpost c3]
  rfl

theorem addLaneLink_appends_witness :
    (AddConnection (AddJunction MapData.empty 10 "J") 10 1 5 6).toOption.bind
        (fun g => g.GetJunction 10) = some ⟨10, "J", [(1, ⟨1, 5, 6, []⟩)]⟩ ∧
      ingest MapData.empty Scenario.junctionLinks =
        Except.ok ⟨[], [(10, ⟨10, "J", [(1, ⟨1, 5, 6, [(-1, 1), (-2, 2)]⟩)]⟩)]⟩ :=
  ⟨rfl, (addLaneLink_appends ⟨[], [(10, ⟨10, "J", [(1, ⟨1, 5, 6, []⟩)]⟩)]⟩ 10 1 (-1) 1
    ⟨10, "J", [(1, ⟨1, 5, 6, []⟩)]⟩ ⟨1, 5, 6, []⟩ rfl rfl).2⟩

/-- C17: `AddConnection` for a junction id that is not in the graph, and `AddLaneLink`
for a junction id that is not in the graph or for a connection id that the junction does
not hold, dereference the null pointer that the lookup yields; the call does not
complete. -/
theorem unknown_junction_dereferenced :
    MapData.empty.GetJunction 10 = none ∧
      AddConnection MapData.empty 10 1 5 6 = Except.error Fault.nullDereference ∧
      AddLaneLink MapData.empty 10 1 (-1) 1 = Except.error Fault.nullDereference ∧
      ((AddJunction MapData.empty 10 "J").GetJunction 10).map
        (fun jn => jn.GetConnection 1) = some none ∧
      AddLaneLink (AddJunction MapData.empty 10 "J") 10 1 (-1) 1 =
        Except.error Fault.nullDereference ∧
      ingest MapData.empty [Event.AddConnection 10 1 5 6, Event.AddJunction 10 "J"] =
        Except.error Fault.nullDereference :=
  ⟨rfl, rfl, rfl, rfl, rfl, rfl⟩

/-! ## Signals and validity ranges -/

theorem addSignal_unknown_road (g : MapData) (road_id signal_id : Nat) (s t : Rat)
    (name dynamic orientation : String) (zOffset : Rat) (country type subtype : String)
    (value : Rat) (unit : String) (height width : Rat) (text : String)
    (hOffset pitch roll : Rat) (h : g.GetRoad road_id = none) :
    AddSignal g road_id signal_id s t name dynamic orientation zOffset country type subtype
      value unit height width text hOffset pitch roll =
      Except.error Fault.nullDereference := by
  simp [AddSignal, h]

theorem addValidity_unknown_road (g : MapData) (road_id signal_id : Nat)
    (from_lane to_lane : Int) (h : g.GetRoad road_id = none) :
    AddValidityToLastAddedSignal g road_id signal_id from_lane to_lane =
      Except.error Fault.nullDereference := by
  simp [AddValidityToLastAddedSignal, h]

/-- C18: on a graph that holds road `road_id` without a signal `signal_id`, `AddSignal`
followed by `AddValidityToLastAddedSignal` both return, and leave in the signal map of
the road exactly one entry for `signal_id`: the signal with the given fields and the
single validity range `(from_lane, to_lane)` tagged with `signal_id`; the other signals,
the other members of the road, the other roads and the junctions are unchanged. For road
5, signal 100 and the range (-1, -3) the road ends with that one signal. -/
theorem addSignal_then_validity (g : MapData) (road_id signal_id : Nat) (s t : Rat)
    (name dynamic orientation : String) (zOffset : Rat) (country type subtype : String)
    (value : Rat) (unit : String) (height width : Rat) (text : String)
    (hOffset pitch roll : Rat) (from_lane to_lane : Int) (road : Road)
    (h : g.GetRoad road_id = some road)
    (hs : Assoc.find signal_id road._signals = none) :
    (∃ g1 g2 rpre rpost spre spost sig,
      sig = ⟨road_id, signal_id, s, t, name, dynamic, orientation, zOffset, country, type,
        subtype, value, unit, height, width, text, hOffset, pitch, roll,
        [⟨signal_id, from_lane, to_lane⟩]⟩ ∧
      AddSignal g road_id signal_id s t name dynamic orientation zOffset country type
        subtype value unit height width text hOffset pitch roll = Except.ok g1 ∧
      AddValidityToLastAddedSignal g1 road_id signal_id from_lane to_lane = Except.ok g2 ∧
      g._roads = rpre ++ (road_id, road) :: rpost ∧
      road._signals = spre ++ spost ∧ (∀ e ∈ spre ++ spost, e.1 ≠ signal_id) ∧
      g2._roads = rpre ++
        (road_id, { road with _signals := spre ++ (signal_id, sig) :: spost }) :: rpost ∧
      g2._junctions = g._junctions) ∧
      ingest MapData.empty Scenario.signalValidity =
        Except.ok ⟨[(5, ⟨5, "R5", 100, -1, false, [-1], [-1], [],
          [(100, { Scenario.signal100 with _validities := [⟨100, -1, -3⟩] })]⟩)], []⟩ := by
  refine ⟨?_, rfl⟩
  have h1 := h
  unfold MapData.GetRoad at h1
  obtain ⟨rpre, rpost, r1, r3⟩ := Assoc.find_split road_id g._roads road h1
  obtain ⟨spre, spost, s1, s2, -, -⟩ := Assoc.insertOrdered_split signal_id
    (⟨road_id, signal_id, s, t, name, dynamic, orientation, zOffset, country, type,
      subtype, value, unit, height, width, text, hOffset, pitch, roll, []⟩ : Signal)
    road._signals
  have hspre : Assoc.find signal_id spre = none := by
    rw [s1] at hs
    exact (Assoc.find_append_none signal_id spre spost hs).1
  have e1 : AddSignal g road_id signal_id s t name dynamic orientation zOffset country type
      subtype value unit height width text hOffset pitch roll =
      Except.ok ⟨rpre ++ (road_id, { road with _signals := spre ++ (signal_id,
        ⟨road_id, signal_id, s, t, name, dynamic, orientation, zOffset, country, type,
          subtype, value, unit, height, width, text, hOffset, pitch, roll, []⟩) ::
        spost }) :: rpost, g._junctions⟩ := by
    simp only [AddSignal, h]
    rw [r1, Assoc.modify_middle road_id _ road rpre rpost r3]
    simp only [Assoc.emplace, hs, s2]
  have e2 : AddValidityToLastAddedSignal
      ⟨rpre ++ (road_id, { road with _signals := spre ++ (signal_id,
        ⟨road_id, signal_id, s, t, name, dynamic, orientation, zOffset, country, type,
          subtype, value, unit, height, width, text, hOffset, pitch, roll, []⟩) ::
        spost }) :: rpost, g._junctions⟩ road_id signal_id from_lane to_lane =
      Except.ok ⟨rpre ++ (road_id, { road with _signals := spre ++ (signal_id,
        ⟨road_id, signal_id, s, t, name, dynamic, orientation, zOffset, country, type,
          subtype, value, unit, height, width, text, hOffset, pitch, roll,
          [⟨signal_id, from_lane, to_lane⟩]⟩) :: spost }) :: rpost, g._junctions⟩ := by
    simp only [AddValidityToLastAddedSignal, MapData.GetRoad,
      Assoc.find_middle_self road_id _ rpre rpost r3,
      Assoc.find_middle_self signal_id _ spre spost hspre]
    rw [Assoc.modify_middle road_id _ _ rpre rpost r3]
    simp only
    rw [Assoc.modify_middle signal_id _ _ spre spost hspre]
    rfl
  refine ⟨_, _, rpre, rpost, spre, spost, _, rfl, e1, e2, r1, s1, ?_, rfl, rfl⟩
  rw [← s1]
  exact Assoc.key_ne_of_find_none signal_id road._signals hs

theorem addSignal_then_validity_witness :
    Scenario.roadFive.GetRoad 5 = some ⟨5, "R5", 100, -1, false, [-1], [-1], [], []⟩ ∧
      ((ingest MapData.empty Scenario.signalValidity).toOption.bind
        (fun g => g.GetRoad 5)).map (fun r => r._signals) =
        some [(100, { Scenario.signal100 with _validities := [⟨100, -1, -3⟩] })] := by
  refine ⟨rfl, ?_⟩
  rw [(addSignal_then_validity Scenario.roadFive 5 100 10 2 "sign" "no" "+" 0 "OpenDRIVE"
    "274" "56" 60 "km/h" 1 1 "" 0 0 0 (-1) (-3) _ rfl rfl).2]
  rfl

/-- C19: road 5 holds signal 100 and road 99 does not exist;
`AddValidityToLastAddedSignal(99, 100, -1, -3)` dereferences the null pointer that
`GetRoad(99)` yields; the call does not complete. -/
theorem validity_on_unknown_road_dereferenced :
    ∃ g, ingest MapData.empty Scenario.signalValidity = Except.ok g ∧
      (g.GetRoad 5).isSome = true ∧ g.GetRoad 99 = none ∧
      AddValidityToLastAddedSignal g 99 100 (-1) (-3) = Except.error Fault.nullDereference ∧
      ingest g [Event.AddValidityToLastAddedSignal 99 100 (-1) (-3),
        Event.AddRoad 6 "R6" 10 (-1) (-1) (-1)] = Except.error Fault.nullDereference :=
  ⟨_, rfl, rfl, rfl, rfl, rfl⟩

/-- C20: only road 5 exists; `AddSignal(99, 100, ...)` dereferences the null pointer that
`GetRoad(99)` yields; the call does not complete and the calls after it are not
reached. -/
theorem signal_on_unknown_road_dereferenced :
    Scenario.roadFive.GetRoad 99 = none ∧
      AddSignal Scenario.roadFive 99 100 10 2 "sign" "no" "+" 0 "OpenDRIVE" "274" "56" 60
        "km/h" 1 1 "" 0 0 0 = Except.error Fault.nullDereference ∧
      ingest Scenario.roadFive
        [Event.AddSignal 99 100 10 2 "sign" "no" "+" 0 "OpenDRIVE" "274" "56" 60 "km/h" 1 1
          "" 0 0 0,
         Event.AddRoad 6 "R6" 10 (-1) (-1) (-1)] = Except.error Fault.nullDereference :=
  ⟨rfl, rfl, rfl⟩

end MapBuilder

/-! ## The position that a section index addresses -/

namespace Assoc

variable {K V W : Type}

theorem insertOrdered_of_all_le [LinearOrder K] [DecidableRel (fun a b : K => a < b)]
    (k : K) (v : V) (m : List (K × V)) (h : ∀ e ∈ m, e.1 ≤ k) :
    insertOrdered k v m = m ++ [(k, v)] := by
  induction m with
  | nil => rfl
  | cons a m ih =>
    obtain ⟨k1, v1⟩ := a
    have hk : ¬ k < k1 := not_lt.mpr (h (k1, v1) (List.mem_cons_self _ _))
    simp only [insertOrdered, hk, if_false, List.cons_append]
    rw [ih (fun e he => h e (List.mem_cons_of_mem _ he))]

theorem map_insertOrdered [LT K] [DecidableRel (fun a b : K => a < b)] (k : K) (v : V)
    (f : V → W) (m : List (K × V)) :
    (insertOrdered k v m).map (fun e => (e.1, f e.2)) =
      insertOrdered k (f v) (m.map (fun e => (e.1, f e.2))) := by
  induction m with
  | nil => rfl
  | cons a m ih =>
    obtain ⟨k1, v1⟩ := a
    by_cases hk : k < k1
    · simp [insertOrdered, hk]
    · simp [insertOrdered, hk, ih]

theorem map_modifyAt (n : Nat) (f : V → V) (p : V → W) (hf : ∀ v, p (f v) = p v)
    (m : List (K × V)) :
    (modifyAt n f m).map (fun e => (e.1, p e.2)) = m.map (fun e => (e.1, p e.2)) := by
  induction m generalizing n with
  | nil => simp [modifyAt]
  | cons a m ih =>
    obtain ⟨k1, v1⟩ := a
    cases n with
    | zero => simp [modifyAt, hf]
    | succ n => simp [modifyAt, ih n]

end Assoc

namespace MapBuilder

theorem sectionCurves_modify (g : MapData) (k : Nat) (f : Road → Road)
    (js : List (Int × Junction))
    (hf : ∀ road, (f road)._lane_sections = road._lane_sections) (r : Nat) :
    MapData.sectionCurves ⟨Assoc.modify k f g._roads, js⟩ r = g.sectionCurves r := by
  unfold MapData.sectionCurves MapData.GetRoad
  simp only [Assoc.find_modify]
  by_cases h : r = k
  · subst h
    cases hr : Assoc.find r g._roads with
    | none => simp
    | some road => simp [hf]
  · simp [h]

theorem sectionCurves_AddRoad (g : MapData) (road_id : Nat) (name : String) (length : Rat)
    (junction_id predecessor successor : Int) (r : Nat) :
    (AddRoad g road_id name length junction_id predecessor successor).sectionCurves r =
      g.sectionCurves r := by
  unfold MapData.sectionCurves
  rw [getRoad_AddRoad]
  by_cases h : r = road_id
  · subst h
    cases hr : g.GetRoad r with
    | none => simp [AddRoad.write, Road.new]
    | some road => simp [AddRoad.write]
  · simp [h]

theorem sectionCurves_AddRoadSectionLane (g : MapData) (road_id section_index : Nat)
    (lane_id : Int) (lane_type : String) (lane_level : Bool) (predecessor successor : Int)
    (r : Nat) :
    (AddRoadSectionLane g road_id section_index lane_id lane_type lane_level predecessor
      successor).sectionCurves r = g.sectionCurves r := by
  unfold MapData.sectionCurves
  rw [getRoad_AddRoadSectionLane]
  by_cases h : r = road_id
  · subst h
    cases hr : g.GetRoad r with
    | none => simp
    | some road =>
      simp only [Option.map_some', if_true, AddRoadSectionLane.write]
      exact Assoc.map_modifyAt section_index
        (AddRoadSectionLane.inSection lane_id lane_type lane_level predecessor successor)
        (fun sec : LaneSection => sec._lane_offset) (fun _ => rfl) road._lane_sections
  · simp [h]

theorem sectionCurves_AddRoadSection (g : MapData) (road_id : Nat) (cubic : CubicPolynomial)
    (r : Nat) :
    (AddRoadSection g road_id cubic).sectionCurves r =
      match createdBy r g (Event.AddRoadSection road_id cubic) with
      | none => g.sectionCurves r
      | some c => Assoc.insertOrdered c.GetS c (g.sectionCurves r) := by
  unfold MapData.sectionCurves createdBy
  rw [getRoad_AddRoadSection]
  by_cases h : r = road_id
  · subst h
    cases hr : g.GetRoad r with
    | none => simp
    | some road =>
      simp only [Option.map_some', if_true, Option.isSome_some, and_self, AddRoadSection.write]
      exact Assoc.map_insertOrdered cubic.GetS (AddRoadSection.section cubic)
        (fun sec : LaneSection => sec._lane_offset) road._lane_sections
  · have h2 : ¬ road_id = r := fun hk => h hk.symm
    simp [h, h2]

/-- One ingestion call changes the sections of road `r`, read as keys and curves, only by
the section that it creates. -/
theorem sectionCurves_step (g g1 : MapData) (e : Event) (h : step g e = Except.ok g1)
    (r : Nat) :
    g1.sectionCurves r =
      match createdBy r g e with
      | none => g.sectionCurves r
      | some c => Assoc.insertOrdered c.GetS c (g.sectionCurves r) := by
  cases e
  case CreateRoadMark r ls l m s ty we co ma wi lc he tn tw =>
    simp [step, createRoadMark_error] at h
  case AddSignal r1 i s1 t na dy ori zo co ty su va un he wi te ho pi ro =>
    simp only [step, AddSignal] at h
    cases hr : g.GetRoad r1 with
    | none => simp [hr] at h
    | some road =>
      simp only [hr, Except.ok.injEq] at h
      subst h
      rw [sectionCurves_modify g r1]
      · rfl
      · intro road
        rfl
  case AddValidityToLastAddedSignal r1 i f t =>
    simp only [step, AddValidityToLastAddedSignal] at h
    cases hr : g.GetRoad r1 with
    | none => simp [hr] at h
    | some road =>
      simp only [hr] at h
      cases hs : Assoc.find i road._signals with
      | none => simp [hs] at h
      | some sig =>
        simp only [hs, Except.ok.injEq] at h
        subst h
        rw [sectionCurves_modify g r1]
        · rfl
        · intro road
          rfl
  case AddRoad r1 n len j p su =>
    simp only [step, Except.ok.injEq] at h
    subst h
    rw [sectionCurves_AddRoad]
    rfl
  case AddRoadSection r1 cubic =>
    simp only [step, Except.ok.injEq] at h
    subst h
    exact sectionCurves_AddRoadSection g r1 cubic r
  case AddRoadSectionLane r1 i l ty lv p su =>
    simp only [step, Except.ok.injEq] at h
    subst h
    rw [sectionCurves_AddRoadSectionLane]
    rfl
  case AddJunction i n =>
    simp only [step, AddJunction, Except.ok.injEq] at h
    subst h
    rfl
  case AddConnection j c i co =>
    simp only [step, AddConnection] at h
    cases hj : g.GetJunction j with
    | none => simp [hj] at h
    | some jn =>
      simp only [hj, Except.ok.injEq] at h
      subst h
      rfl
  case AddLaneLink j c f t =>
    simp only [step, AddLaneLink] at h
    cases hj : g.GetJunction j with
    | none => simp [hj] at h
    | some jn =>
      simp only [hj] at h
      cases hc : jn.GetConnection c with
      | none => simp [hc] at h
      | some cn =>
        simp only [hc, Except.ok.injEq] at h
        subst h
        rfl
  all_goals
    simp only [step, AddRoadElevationProfile, CreateLaneAccess, CreateLaneBorder,
      CreateLaneHeight, CreateLaneMaterial, CreateLaneOffset, CreateLaneRule,
      CreateLaneVisibility, CreateLaneWidth, CreateRoadMarkTypeLine, CreateLaneSpeed,
      Except.ok.injEq] at h
    subst h
    rfl

/-- When the sections that a sequence of calls creates for road `r` come in
non-decreasing order of start offset, after the sections already there, the sections of
`r` at the end are those at the start followed by the created ones in call order. -/
theorem sectionCurves_ingest (r : Nat) (calls : List Event) (g0 g : MapData)
    (h : ingest g0 calls = Except.ok g)
    (hord : ((g0.sectionCurves r).map Prod.fst ++
      (createdSections r g0 calls).map CubicPolynomial.GetS).Pairwise (fun a b => a ≤ b)) :
    g.sectionCurves r =
      g0.sectionCurves r ++ (createdSections r g0 calls).map (fun c => (c.GetS, c)) := by
  induction calls generalizing g0 with
  | nil =>
    simp only [ingest, Except.ok.injEq] at h
    subst h
    simp [createdSections]
  | cons e rest ih =>
    simp only [ingest] at h
    cases hs : step g0 e with
    | error f => simp [hs] at h
    | ok g1 =>
      simp only [hs] at h
      have hstep := sectionCurves_step g0 g1 e hs r
      simp only [createdSections, hs] at hord ⊢
      cases hc : createdBy r g0 e with
      | none =>
        rw [hc] at hstep
        simp only at hstep
        simp only [hc, Option.toList, List.nil_append] at hord ⊢
        rw [← hstep] at hord ⊢
        exact ih g1 h hord
      | some c =>
        rw [hc] at hstep
        simp only at hstep
        simp only [hc, Option.toList, List.map_cons, List.cons_append, List.nil_append]
          at hord ⊢
        have hle : ∀ x ∈ g0.sectionCurves r, x.1 ≤ c.GetS := by
          intro x hx
          exact (List.pairwise_append.mp hord).2.2 x.1 (List.mem_map_of_mem _ hx) c.GetS
            (List.mem_cons_self _ _)
        have hg1 : g1.sectionCurves r = g0.sectionCurves r ++ [(c.GetS, c)] := by
          rw [hstep]
          exact Assoc.insertOrdered_of_all_le _ _ _ hle
        have hrest := ih g1 h (by rw [hg1]; simpa using hord)
        rw [hrest, hg1]
        simp

/-- C11, as the code has it: after any sequence of ingestion calls, `section_index`
counts the sections of the road in iteration order of the multimap, that is by
non-decreasing start offset: `AddRoadSectionLane(road_id, section_index, ...)` emplaces
and writes the lane in the section at that position and changes no other section. When
the sections of the road were created in non-decreasing order of start offset, that
section is the one created by the call number `section_index + 1` among the
`AddRoadSection` calls that created a section of the road. -/
theorem section_index_counts_by_offset (calls : List Event) (g : MapData)
    (h : ingest MapData.empty calls = Except.ok g) (road_id : Nat) (road : Road)
    (section_index : Nat) (key : Rat) (sec : LaneSection) (lane_id : Int)
    (lane_type : String) (lane_level : Bool) (predecessor successor : Int)
    (hr : g.GetRoad road_id = some road)
    (hsec : road._lane_sections[section_index]? = some (key, sec)) :
    ∃ spre spost,
      road._lane_sections = spre ++ (key, sec) :: spost ∧ spre.length = section_index ∧
      (∀ e ∈ spre, e.1 ≤ key) ∧ (∀ e ∈ spost, key ≤ e.1) ∧
      (AddRoadSectionLane g road_id section_index lane_id lane_type lane_level predecessor
        successor).GetRoad road_id = some { road with _lane_sections := spre ++ (key,
          AddRoadSectionLane.inSection lane_id lane_type lane_level predecessor successor
            sec) :: spost } ∧
      (AddRoadSectionLane g road_id section_index lane_id lane_type lane_level predecessor
        successor).lane road_id section_index lane_id =
          some (AddRoadSectionLane.setLane lane_id lane_type lane_level predecessor successor
            ((Assoc.find lane_id sec._lanes).getD Lane.new)) ∧
      (((createdSections road_id MapData.empty calls).map CubicPolynomial.GetS).Pairwise
          (fun a b => a ≤ b) →
        (createdSections road_id MapData.empty calls)[section_index]? =
          some sec._lane_offset) := by
  obtain ⟨spre, spost, s1, s2, s3⟩ := Assoc.modifyAt_split section_index
    (AddRoadSectionLane.inSection lane_id lane_type lane_level predecessor successor)
    road._lane_sections key sec hsec
  have ho := (ingest_orderedSections calls g h road_id road hr).1
  rw [s1] at ho
  simp only [List.map_append, List.map_cons, List.pairwise_append, List.pairwise_cons,
    List.mem_map, List.mem_cons] at ho
  have hget : (AddRoadSectionLane g road_id section_index lane_id lane_type lane_level
      predecessor successor).GetRoad road_id = some { road with _lane_sections :=
        spre ++ (key, AddRoadSectionLane.inSection lane_id lane_type lane_level predecessor
          successor sec) :: spost } := by
    rw [getRoad_AddRoadSectionLane, if_pos rfl, hr]
    simp only [Option.map_some', AddRoadSectionLane.write, s3]
  refine ⟨spre, spost, s1, s2, ?_, ?_, hget, ?_, ?_⟩
  · intro e he
    exact ho.2.2 e.1 ⟨e, he, rfl⟩ key (Or.inl rfl)
  · intro e he
    exact ho.2.1.1 e.1 ⟨e, he, rfl⟩
  · unfold MapData.lane
    rw [hget]
    simp only
    rw [← s2, Assoc.getElem?_middle]
    simp only [AddRoadSectionLane.inSection, Assoc.find_modify, Assoc.find_emplace, if_true,
      Option.map_some']
  · intro hp
    have hcur := sectionCurves_ingest road_id calls MapData.empty g h (by simpa
      [MapData.sectionCurves, MapData.GetRoad, MapData.empty, Assoc.find] using hp)
    have hg : g.sectionCurves road_id =
        road._lane_sections.map (fun e => (e.1, e.2._lane_offset)) := by
      unfold MapData.sectionCurves
      rw [hr]
    have hk : (g.sectionCurves road_id)[section_index]? = some (key, sec._lane_offset) := by
      rw [hg, List.getElem?_map, hsec]
      rfl
    rw [hcur] at hk
    simp only [MapData.sectionCurves, MapData.GetRoad, MapData.empty, Assoc.find,
      List.nil_append, List.getElem?_map] at hk
    cases hc : (createdSections road_id { _roads := [], _junctions := [] } calls)[section_index]? with
    | none => simp [hc] at hk
    | some c =>
      simp only [hc, Option.map_some', Option.some.injEq, Prod.mk.injEq] at hk
      simp only [MapData.empty, hc, hk.2]

theorem section_index_counts_by_offset_witness :
    ingest MapData.empty [Event.AddRoad 1 "R1" 100 (-1) (-1) (-1),
        Event.AddRoadSection 1 (Scenario.curveAt 0),
        Event.AddRoadSection 1 (Scenario.curveAt 10)] =
      Except.ok (AddRoadSection (AddRoadSection (AddRoad MapData.empty 1 "R1" 100 (-1) (-1)
        (-1)) 1 (Scenario.curveAt 0)) 1 (Scenario.curveAt 10)) ∧
      (createdSections 1 MapData.empty [Event.AddRoad 1 "R1" 100 (-1) (-1) (-1),
        Event.AddRoadSection 1 (Scenario.curveAt 0),
        Event.AddRoadSection 1 (Scenario.curveAt 10)])[1]? = some (Scenario.curveAt 10) := by
  refine ⟨rfl, ?_⟩
  obtain ⟨spre, spost, -, -, -, -, -, -, hcreated⟩ :=
    section_index_counts_by_offset [Event.AddRoad 1 "R1" 100 (-1) (-1) (-1),
      Event.AddRoadSection 1 (Scenario.curveAt 0),
      Event.AddRoadSection 1 (Scenario.curveAt 10)] _ rfl 1
      ⟨1, "R1", 100, -1, false, [-1], [-1],
        [(0, ⟨0, Scenario.curveAt 0, []⟩), (10, ⟨10, Scenario.curveAt 10, []⟩)], []⟩
      1 10 ⟨10, Scenario.curveAt 10, []⟩ (-1) "driving" false 0 0 rfl rfl
  exact hcreated (by decide)

/-- C11 as stated fails: a section at offset 10 is created first and a section at
offset 0 second; `AddRoadSectionLane` with section index 0 then puts the lane in the
section created second, and the section created first has no lane. -/
theorem section_index_not_creation_order :
    ∃ g road, ingest MapData.empty Scenario.reversedSections = Except.ok g ∧
      g.GetRoad 1 = some road ∧
      createdSections 1 MapData.empty Scenario.reversedSections =
        [Scenario.curveAt 10, Scenario.curveAt 0] ∧
      road._lane_sections.map (fun e => (e.2._lane_offset, e.2._lanes.map Prod.fst)) =
        [(Scenario.curveAt 0, [-1]), (Scenario.curveAt 10, [])] :=
  ⟨_, _, rfl, rfl, by decide, rfl⟩

/-! ## `Build` returns, the junction flag, and `CreateRoadMark` -/

/-- C21: for every graph, so for every graph that a sequence of ingestion calls leaves,
`Build` returns a present map, which holds the junctions and the lane sections of every
road of the graph; so it does after calls that failed softly and with a lane whose raw
neighbour id matches nothing. -/
theorem build_returns_map (total : List (Nat × Road) → Road → Rat) (g : MapData) :
    (∃ m, Build total g = some m ∧ m._data._junctions = g._junctions ∧
      m._data._roads.map (fun e => (e.1, e.2._lane_sections)) =
        g._roads.map (fun e => (e.1, e.2._lane_sections))) ∧
      (run total Scenario.strayLink).isSome = true ∧
      (run total [Event.AddRoadSection 9 (Scenario.curveAt 0),
        Event.AddRoadSectionLane 9 0 (-1) "driving" false 0 0,
        Event.AddRoad 1 "R1" 100 (-1) (-1) 2]).isSome = true := by
  refine ⟨⟨_, rfl, rfl, ?_⟩, rfl, rfl⟩
  simp [CreatePointersBetweenRoadSegments, SetTotalRoadSegmentLength, List.map_map,
    Function.comp_def]

/-- C25: the road that `AddRoad` leaves under `road_id` carries the junction id of the
call and is marked as a junction exactly when that id is not -1. -/
theorem addRoad_junction_flag (g : MapData) (road_id : Nat) (name : String) (length : Rat)
    (junction_id predecessor successor : Int) :
    ∃ road, (AddRoad g road_id name length junction_id predecessor successor).GetRoad
        road_id = some road ∧
      road._junction_id = junction_id ∧
      (road._is_junction = true ↔ junction_id ≠ -1) ∧
      (junction_id = -1 → road._is_junction = false) := by
  rw [getRoad_AddRoad, if_pos rfl]
  refine ⟨_, rfl, rfl, ?_, ?_⟩
  · by_cases hj : junction_id = -1
    · simp [AddRoad.write, hj]
    · simp [AddRoad.write, hj]
  · intro hj
    simp [AddRoad.write, hj]

/-- C26: for every choice of its arguments `CreateRoadMark` raises the runtime error
"not implemented": its helper `tl` raises it for every string, among them "increase",
"decrease", "both" and the empty string, so that the first comparison is never made and
no call returns a graph. -/
theorem createRoadMark_never_returns (g : MapData) (r ls l m : Int) (s : Rat)
    (ty we co ma : String) (wi : Rat) (lc : String) (he : Rat) (tn : String) (tw : Rat) :
    CreateRoadMark.tl lc = Except.error (Fault.runtimeError "not implemented") ∧
      CreateRoadMark.tl "increase" = Except.error (Fault.runtimeError "not implemented") ∧
      CreateRoadMark.tl "decrease" = Except.error (Fault.runtimeError "not implemented") ∧
      CreateRoadMark.tl "both" = Except.error (Fault.runtimeError "not implemented") ∧
      CreateRoadMark.tl "" = Except.error (Fault.runtimeError "not implemented") ∧
      CreateRoadMark g r ls l m s ty we co ma wi lc he tn tw =
        Except.error (Fault.runtimeError "not implemented") ∧
      ∀ g1, CreateRoadMark g r ls l m s ty we co ma wi lc he tn tw ≠ Except.ok g1 := by
  refine ⟨rfl, rfl, rfl, rfl, rfl, rfl, ?_⟩
  intro g1 h
  rw [createRoadMark_error] at h
  exact Except.noConfusion h

/-! ## A lane id added again -/

/-- C28: when the addressed section already holds a lane `lane_id`, `AddRoadSectionLane`
adds no lane: the lanes of the section are as many as before and the entry of `lane_id`
is rewritten in place, with the type and level of the call, the raw successor appended
after the successor slots already stored and the raw predecessor appended after the
predecessor slots already stored; the other lanes, the other sections, the other roads
and the junctions are unchanged. -/
theorem addRoadSectionLane_existing (g : MapData) (road_id section_index : Nat)
    (lane_id : Int) (lane_type : String) (lane_level : Bool) (predecessor successor : Int)
    (road : Road) (key : Rat) (sec : LaneSection) (lane : Lane)
    (h : g.GetRoad road_id = some road)
    (hsec : road._lane_sections[section_index]? = some (key, sec))
    (hlane : Assoc.find lane_id sec._lanes = some lane) :
    ∃ rpre rpost spre spost lpre lpost lane1 road1,
      lane1 = ⟨lane_id, lane_type, lane_level, lane._next_lanes ++ [LanePtr.fromId successor],
        lane._prev_lanes ++ [LanePtr.fromId predecessor]⟩ ∧
      road1 = { road with _lane_sections :=
        spre ++ (key, { sec with _lanes := lpre ++ (lane_id, lane1) :: lpost }) :: spost } ∧
      g._roads = rpre ++ (road_id, road) :: rpost ∧
      road._lane_sections = spre ++ (key, sec) :: spost ∧ spre.length = section_index ∧
      sec._lanes = lpre ++ (lane_id, lane) :: lpost ∧
      (lpre ++ (lane_id, lane1) :: lpost).length = sec._lanes.length ∧
      (AddRoadSectionLane g road_id section_index lane_id lane_type lane_level predecessor
        successor)._roads = rpre ++ (road_id, road1) :: rpost ∧
      (AddRoadSectionLane g road_id section_index lane_id lane_type lane_level predecessor
        successor).lane road_id section_index lane_id = some lane1 ∧
      (AddRoadSectionLane g road_id section_index lane_id lane_type lane_level predecessor
        successor)._junctions = g._junctions := by
  have hlt : section_index < road._lane_sections.length := by
    by_contra hge
    rw [List.getElem?_eq_none (Nat.le_of_not_lt hge)] at hsec
    exact Option.noConfusion hsec
  obtain ⟨lpre, lpost, l1, l2, l3⟩ := Assoc.modify_split lane_id
    (AddRoadSectionLane.setLane lane_id lane_type lane_level predecessor successor)
    sec._lanes lane hlane
  obtain ⟨spre, spost, s1, s2, s3⟩ := Assoc.modifyAt_split section_index
    (AddRoadSectionLane.inSection lane_id lane_type lane_level predecessor successor)
    road._lane_sections key sec hsec
  obtain ⟨rpre, rpost, r1, r2, r3⟩ := Assoc.modify_split road_id
    (AddRoadSectionLane.write section_index lane_id lane_type lane_level predecessor
      successor) g._roads road h
  have hroads : (AddRoadSectionLane g road_id section_index lane_id lane_type lane_level
      predecessor successor)._roads = rpre ++ (road_id, { road with _lane_sections :=
        spre ++ (key, { sec with _lanes := lpre ++ (lane_id,
          ⟨lane_id, lane_type, lane_level, lane._next_lanes ++ [LanePtr.fromId successor],
            lane._prev_lanes ++ [LanePtr.fromId predecessor]⟩) :: lpost }) :: spost }) ::
        rpost := by
    simp only [AddRoadSectionLane, h, ge_iff_le, Nat.not_le.mpr hlt, if_false]
    rw [r2]
    simp only [AddRoadSectionLane.write, s3, AddRoadSectionLane.inSection, Assoc.emplace,
      hlane, l2]
    rfl
  refine ⟨rpre, rpost, spre, spost, lpre, lpost, _, _, rfl, rfl, r1, s1, s2, l1, ?_, hroads,
    ?_, ?_⟩
  · rw [l1]
    simp
  · unfold MapData.lane MapData.GetRoad
    rw [hroads, Assoc.find_middle_self road_id _ rpre rpost r3]
    simp only
    rw [← s2, Assoc.getElem?_middle]
    exact Assoc.find_middle_self lane_id _ lpre lpost l3
  · simp [AddRoadSectionLane, h, Nat.not_le.mpr hlt]

theorem addRoadSectionLane_existing_witness :
    Scenario.oneLane.GetRoad 1 = some ⟨1, "R1", 100, -1, false, [-1], [-1],
        [(0, ⟨0, Scenario.curveAt 0, [(-1, ⟨-1, "driving", false, [LanePtr.fromId 0],
          [LanePtr.fromId 0]⟩)]⟩)], []⟩ ∧
      (AddRoadSectionLane Scenario.oneLane 1 0 (-1) "sidewalk" true 4 5).lane 1 0 (-1) =
        some ⟨-1, "sidewalk", true, [LanePtr.fromId 0, LanePtr.fromId 5],
          [LanePtr.fromId 0, LanePtr.fromId 4]⟩ := by
  refine ⟨rfl, ?_⟩
  obtain ⟨rpre, rpost, spre, spost, lpre, lpost, lane1, road1, hlane1, -, -, -, -, -, -, -,
      hget, -⟩ :=
    addRoadSectionLane_existing Scenario.oneLane 1 0 (-1) "sidewalk" true 4 5 _ 0
      ⟨0, Scenario.curveAt 0, [(-1, ⟨-1, "driving", false, [LanePtr.fromId 0],
        [LanePtr.fromId 0]⟩)]⟩ ⟨-1, "driving", false, [LanePtr.fromId 0], [LanePtr.fromId 0]⟩
      rfl rfl rfl
  rw [hget, hlane1]
  rfl

/-! ## `GetLaneAddress` -/

theorem getLaneAddress_fromStart_graph (g g1 : MapData) (road_id : Nat) (from_start : Bool)
    (lane_id : Int) (p : LanePtr)
    (h : GetLaneAddress.fromStart g road_id from_start lane_id = Except.ok (p, g1)) :
    g1 = g := by
  simp only [GetLaneAddress.fromStart] at h
  iterate 3 (all_goals (try split at h))
  all_goals first
    | exact ((Prod.mk.inj (Except.ok.inj h)).2).symm
    | exact Except.noConfusion h

theorem getLaneAddress_atIndex_graph (g g1 : MapData) (road_id section_index : Nat)
    (lane_id : Int) (p : LanePtr)
    (h : GetLaneAddress.atIndex g road_id section_index lane_id = Except.ok (p, g1)) :
    g1 = g := by
  simp only [GetLaneAddress.atIndex] at h
  iterate 3 (all_goals (try split at h))
  all_goals first
    | exact ((Prod.mk.inj (Except.ok.inj h)).2).symm
    | exact Except.noConfusion h

/-- C23: road 5 exists and has no lane section, road 1 has one lane section. Both
`from_start` forms on road 5, the index form on road 5 with index 0 and the index form
on road 1 with the indices 1 and 7 go past the end of the multimap instead of returning
the null pointer, while `AddRoadSectionLane` with the same road and index tests the
index and returns. -/
theorem getLaneAddress_past_the_end :
    (Scenario.roadFive.GetRoad 5).map (fun r => r._lane_sections.length) = some 0 ∧
      GetLaneAddress.fromStart Scenario.roadFive 5 true (-1) =
        Except.error Fault.pastTheEnd ∧
      GetLaneAddress.fromStart Scenario.roadFive 5 false (-1) =
        Except.error Fault.pastTheEnd ∧
      GetLaneAddress.atIndex Scenario.roadFive 5 0 (-1) = Except.error Fault.pastTheEnd ∧
      (Scenario.oneLane.GetRoad 1).map (fun r => r._lane_sections.length) = some 1 ∧
      GetLaneAddress.atIndex Scenario.oneLane 1 1 (-1) = Except.error Fault.pastTheEnd ∧
      GetLaneAddress.atIndex Scenario.oneLane 1 7 (-1) = Except.error Fault.pastTheEnd ∧
      AddRoadSectionLane Scenario.oneLane 1 1 (-1) "driving" false 0 0 = Scenario.oneLane :=
  ⟨rfl, rfl, rfl, rfl, rfl, rfl, rfl, rfl⟩

/-- Where a `GetLaneAddress` call returns, a second call with the same arguments, on the
graph as the first call leaves it, returns the same pointer and the graph is as it was
before the first call. Where the first call goes past the end of the sections nothing
is returned, and this statement says nothing about a second call. -/
theorem getLaneAddress_repeatable (g : MapData) (road_id section_index : Nat)
    (from_start : Bool) (lane_id : Int) :
    (GetLaneAddress.fromStart g road_id from_start lane_id).bind (fun r1 =>
        (GetLaneAddress.fromStart r1.2 road_id from_start lane_id).map
          (fun r2 => (r1.1, r2.1, r2.2))) =
      (GetLaneAddress.fromStart g road_id from_start lane_id).map
        (fun r => (r.1, r.1, g)) ∧
    (GetLaneAddress.atIndex g road_id section_index lane_id).bind (fun r1 =>
        (GetLaneAddress.atIndex r1.2 road_id section_index lane_id).map
          (fun r2 => (r1.1, r2.1, r2.2))) =
      (GetLaneAddress.atIndex g road_id section_index lane_id).map
        (fun r => (r.1, r.1, g)) := by
  refine ⟨?_, ?_⟩
  · cases h : GetLaneAddress.fromStart g road_id from_start lane_id with
    | error f => rfl
    | ok r =>
      obtain ⟨p, g1⟩ := r
      have hg := getLaneAddress_fromStart_graph g g1 road_id from_start lane_id p h
      subst hg
      simp [Except.bind, Except.map, h]
  · cases h : GetLaneAddress.atIndex g road_id section_index lane_id with
    | error f => rfl
    | ok r =>
      obtain ⟨p, g1⟩ := r
      have hg := getLaneAddress_atIndex_graph g g1 road_id section_index lane_id p h
      subst hg
      simp [Except.bind, Except.map, h]

/-- C24: road 5 exists and has no lane section, road 1 has one lane section. The first
of two `GetLaneAddress(5, true, -1)` calls goes past the end of the multimap and returns
no pointer, neither the address of a lane nor the null pointer, so that the two calls do
not return the same result; likewise for `from_start = false`, for the index form on
road 5 with index 0 and for the index form on road 1 with index 1. -/
theorem getLaneAddress_twice_past_the_end :
    (¬ ∃ p g1, GetLaneAddress.fromStart Scenario.roadFive 5 true (-1) = Except.ok (p, g1)) ∧
      (¬ ∃ p g1, GetLaneAddress.fromStart Scenario.roadFive 5 false (-1) =
        Except.ok (p, g1)) ∧
      (¬ ∃ p g1, GetLaneAddress.atIndex Scenario.roadFive 5 0 (-1) = Except.ok (p, g1)) ∧
      (¬ ∃ p g1, GetLaneAddress.atIndex Scenario.oneLane 1 1 (-1) = Except.ok (p, g1)) ∧
      (GetLaneAddress.fromStart Scenario.roadFive 5 true (-1)).bind (fun r1 =>
        (GetLaneAddress.fromStart r1.2 5 true (-1)).map (fun r2 => (r1.1, r2.1))) =
        Except.error Fault.pastTheEnd ∧
      (GetLaneAddress.atIndex Scenario.oneLane 1 1 (-1)).bind (fun r1 =>
        (GetLaneAddress.atIndex r1.2 1 1 (-1)).map (fun r2 => (r1.1, r2.1))) =
        Except.error Fault.pastTheEnd := by
  refine ⟨?_, ?_, ?_, ?_, rfl, rfl⟩
  · rintro ⟨p, g1, h⟩
    have h2 : (Except.error Fault.pastTheEnd : Except Fault (LanePtr × MapData)) =
        Except.ok (p, g1) := h
    exact Except.noConfusion h2
  · rintro ⟨p, g1, h⟩
    have h2 : (Except.error Fault.pastTheEnd : Except Fault (LanePtr × MapData)) =
        Except.ok (p, g1) := h
    exact Except.noConfusion h2
  · rintro ⟨p, g1, h⟩
    have h2 : (Except.error Fault.pastTheEnd : Except Fault (LanePtr × MapData)) =
        Except.ok (p, g1) := h
    exact Except.noConfusion h2
  · rintro ⟨p, g1, h⟩
    have h2 : (Except.error Fault.pastTheEnd : Except Fault (LanePtr × MapData)) =
        Except.ok (p, g1) := h
    exact Except.noConfusion h2

/-- C27: for a road with at least one lane section, `GetLaneAddress` with
`from_start = true` returns what the index form returns for index 0, and with
`from_start = false` what the index form returns for the index of the last section, the
number of sections less one. -/
theorem getLaneAddress_forms_agree (g : MapData) (road_id : Nat) (lane_id : Int)
    (road : Road) (h : g.GetRoad road_id = some road) (hn : road._lane_sections ≠ []) :
    GetLaneAddress.fromStart g road_id true lane_id =
        GetLaneAddress.atIndex g road_id 0 lane_id ∧
      GetLaneAddress.fromStart g road_id false lane_id =
        GetLaneAddress.atIndex g road_id (road._lane_sections.length - 1) lane_id := by
  refine ⟨?_, ?_⟩
  · cases hs : road._lane_sections with
    | nil => exact absurd hs hn
    | cons e rest => simp [GetLaneAddress.fromStart, GetLaneAddress.atIndex, h, hs]
  · have hlast := List.getLast?_eq_getElem? road._lane_sections
    cases hx : road._lane_sections[road._lane_sections.length - 1]? with
    | none =>
      rw [hx] at hlast
      simp [GetLaneAddress.fromStart, GetLaneAddress.atIndex, h, hx, hlast]
    | some e =>
      rw [hx] at hlast
      simp [GetLaneAddress.fromStart, GetLaneAddress.atIndex, h, hx, hlast]

theorem getLaneAddress_forms_agree_witness :
    Scenario.oneLane.GetRoad 1 = some ⟨1, "R1", 100, -1, false, [-1], [-1],
        [(0, ⟨0, Scenario.curveAt 0, [(-1, ⟨-1, "driving", false, [LanePtr.fromId 0],
          [LanePtr.fromId 0]⟩)]⟩)], []⟩ ∧
      GetLaneAddress.fromStart Scenario.oneLane 1 false (-1) =
        GetLaneAddress.atIndex Scenario.oneLane 1 0 (-1) :=
  ⟨rfl, (getLaneAddress_forms_agree Scenario.oneLane 1 (-1) _ rfl (by decide)).2⟩

end MapBuilder

end carla.road

/-! # RoadRunnerImporter: names and base materials -/

namespace RoadRunnerImporter

theorem strchr_none (c : Char) (s : List Char) : Strchr s c = none ↔ c ∉ s := by
  induction s with
  | nil => simp [Strchr]
  | cons x rest ih =>
    by_cases hx : x = c
    · simp [Strchr, hx]
    · have hx2 : ¬ c = x := fun h => hx h.symm
      simp [Strchr, hx, hx2, ih]

theorem strchr_some (c : Char) (s t : List Char) (h : Strchr s c = some t) :
    ∃ pre rest, s = pre ++ c :: rest ∧ t = c :: rest ∧ c ∉ pre := by
  induction s with
  | nil => simp [Strchr] at h
  | cons x rest ih =>
    by_cases hx : x = c
    · simp only [Strchr, hx, if_true, Option.some.injEq] at h
      exact ⟨[], rest, by simp [hx], h.symm, by simp⟩
    · simp only [Strchr, hx, if_false] at h
      obtain ⟨pre, rest1, h1, h2, h3⟩ := ih h
      have hx2 : ¬ c = x := fun h => hx h.symm
      exact ⟨x :: pre, rest1, by simp [h1], h2, by simp [hx2, h3]⟩

namespace FRoadRunnerImporterModule

theorem replaceChar_eq_map (c : Char) (s : List Char) :
    replaceChar c s = s.map (fun x => if x = c then '_' else x) := by
  induction s with
  | nil => rfl
  | cons x rest ih =>
    by_cases hx : x = c
    · simp [replaceChar, hx, ih]
    · simp [replaceChar, hx, ih]

theorem afterLast_none (c : Char) (s : List Char) : afterLast c s = none ↔ c ∉ s := by
  induction s with
  | nil => simp [afterLast]
  | cons x rest ih =>
    cases hr : afterLast c rest with
    | some t =>
      have hmem : c ∈ rest := by
        by_contra hc
        rw [ih.mpr hc] at hr
        exact Option.noConfusion hr
      simp [afterLast, hr, hmem]
    | none =>
      have hmem : c ∉ rest := ih.mp hr
      by_cases hx : x = c
      · simp [afterLast, hr, hx]
      · have hx2 : ¬ c = x := fun h => hx h.symm
        simp [afterLast, hr, hx, hx2, hmem]

theorem afterLast_middle (c : Char) (pre rest : List Char) :
    afterLast c (pre ++ c :: rest) = some ((afterLast c rest).getD rest) := by
  induction pre with
  | nil =>
    cases hr : afterLast c rest with
    | some t => simp [afterLast, hr]
    | none => simp [afterLast, hr]
  | cons x pre ih => simp [afterLast, ih]

theorem afterLast_some (c : Char) (s t : List Char) (h : afterLast c s = some t) :
    (∃ pre, s = pre ++ c :: t) ∧ c ∉ t := by
  induction s generalizing t with
  | nil => simp [afterLast] at h
  | cons x rest ih =>
    cases hr : afterLast c rest with
    | some t1 =>
      simp only [afterLast, hr, Option.some.injEq] at h
      subst h
      obtain ⟨⟨pre, h1⟩, h2⟩ := ih t1 hr
      exact ⟨⟨x :: pre, by simp [h1]⟩, h2⟩
    | none =>
      simp only [afterLast, hr] at h
      by_cases hx : x = c
      · simp only [hx, if_true, Option.some.injEq] at h
        subst h
        exact ⟨⟨[], by simp [hx]⟩, (afterLast_none c rest).mp hr⟩
      · simp [hx] at h

theorem lastNamespace_drop (fuel : Nat) (rest : List Char) (h : rest.length ≤ fuel) :
    (lastNamespace fuel (':' :: rest)).drop 1 = (afterLast ':' rest).getD rest := by
  induction fuel generalizing rest with
  | zero =>
    have hr : rest = [] := List.length_eq_zero.mp (Nat.le_zero.mp h)
    subst hr
    rfl
  | succ fuel ih =>
    cases hs : Strchr rest ':' with
    | none =>
      have hn := (afterLast_none ':' rest).mpr ((strchr_none ':' rest).mp hs)
      simp [lastNamespace, hs, hn]
    | some next =>
      obtain ⟨pre, rest1, h1, h2, -⟩ := strchr_some ':' rest next hs
      have hlen : rest1.length ≤ fuel := by
        rw [h1] at h
        simp only [List.length_append, List.length_cons] at h
        omega
      simp only [lastNamespace, List.drop_succ_cons, List.drop_zero, hs, h2]
      rw [ih rest1 hlen, h1, afterLast_middle]
      rfl

theorem replaced_eq_map (Name : List Char) :
    SpecialChars.foldl (fun tmp c => replaceChar c tmp) Name =
      Name.map (fun x => if x ∈ SpecialChars then '_' else x) := by
  simp only [SpecialChars, List.foldl, replaceChar_eq_map, List.map_map]
  apply List.map_congr_left
  intro x _
  simp only [Function.comp, List.mem_cons, List.mem_singleton, List.not_mem_nil, or_false]
  by_cases h1 : x = '.'
  · subst h1
    decide
  by_cases h2 : x = ','
  · subst h2
    decide
  by_cases h3 : x = '/'
  · subst h3
    decide
  by_cases h4 : x = '\x60'
  · subst h4
    decide
  by_cases h5 : x = '%'
  · subst h5
    decide
  simp [h1, h2, h3, h4, h5]

theorem makeName_eq_spec (n : List Char) : MakeName n = MakeNameSpec n := by
  unfold MakeName MakeNameSpec
  simp only [replaced_eq_map]
  cases hs : Strchr (n.map (fun x => if x ∈ SpecialChars then '_' else x)) ':' with
  | none =>
    have hn := (afterLast_none ':' _).mpr ((strchr_none ':' _).mp hs)
    simp [hn]
  | some NewName =>
    obtain ⟨pre, rest, h1, h2, -⟩ := strchr_some ':' _ NewName hs
    have hlen : rest.length ≤ n.length := by
      have hl := congrArg List.length h1
      simp only [List.length_map, List.length_append, List.length_cons] at hl
      omega
    simp only [h2]
    rw [lastNamespace_drop n.length rest hlen, h1, afterLast_middle]
    rfl

theorem spec_clean (n : List Char) :
    ':' ∉ MakeNameSpec n ∧ ∀ c ∈ SpecialChars, c ∉ MakeNameSpec n := by
  have hrep : ∀ c ∈ SpecialChars,
      c ∉ n.map (fun x => if x ∈ SpecialChars then '_' else x) := by
    intro c hc hmem
    obtain ⟨x, -, hx⟩ := List.mem_map.mp hmem
    by_cases hx1 : x ∈ SpecialChars
    · simp only [hx1, if_true] at hx
      subst hx
      exact absurd hc (by decide)
    · simp only [hx1, if_false] at hx
      subst hx
      exact hx1 hc
  unfold MakeNameSpec
  cases ha : afterLast ':' (n.map (fun x => if x ∈ SpecialChars then '_' else x)) with
  | none =>
    simp only [ha, Option.getD_none]
    exact ⟨(afterLast_none ':' _).mp ha, hrep⟩
  | some t =>
    obtain ⟨⟨pre, h1⟩, h2⟩ := afterLast_some ':' _ t ha
    simp only [ha, Option.getD_some]
    refine ⟨h2, ?_⟩
    intro c hc hmem
    refine hrep c hc ?_
    rw [h1]
    simp [hmem]

theorem spec_fixed (r : List Char) (hcolon : ':' ∉ r) (hspecial : ∀ c ∈ SpecialChars, c ∉ r) :
    MakeNameSpec r = r := by
  have hmap : r.map (fun x => if x ∈ SpecialChars then '_' else x) = r := by
    conv_rhs => rw [← List.map_id r]
    apply List.map_congr_left
    intro x hx
    have : x ∉ SpecialChars := fun hs => hspecial x hs hx
    simp [this]
  unfold MakeNameSpec
  simp only [hmap, (afterLast_none ':' r).mpr hcolon, Option.getD_none]

/-- C29: for every string `n`, `MakeName n` is the part after the last colon of `n` with
every `.`, `,`, `/`, backquote and `%` replaced by an underscore, or that whole string
when it has no colon; the result holds no colon and none of the five characters, and
`MakeName` applied to it gives it back. -/
theorem makeName_is_cleaned_tail (n : List Char) :
    MakeName n = MakeNameSpec n ∧
      ':' ∉ MakeName n ∧ (∀ c ∈ SpecialChars, c ∉ MakeName n) ∧
      MakeName (MakeName n) = MakeName n ∧
      MakeName "ns1:ns2:My.Mat,1/x%y".toList = "My_Mat_1_x_y".toList := by
  have hclean := spec_clean n
  refine ⟨makeName_eq_spec n, ?_, ?_, ?_, by decide⟩
  · rw [makeName_eq_spec]
    exact hclean.1
  · rw [makeName_eq_spec]
    exact hclean.2
  · rw [makeName_eq_spec (MakeName n), makeName_eq_spec n]
    exact spec_fixed _ hclean.1 hclean.2

end FRoadRunnerImporterModule

/-- C30: the base material name of `CreateUnrealMaterial` is "BaseMaterial" for every
metadata version when the material is not transparent, that is when `TransparencyMap` is
empty and the transparency is not above 0; for a metadata version of at least 1 and a
transparent material it is "BaseTransparentMaterial" when `DrawQueue` is not "0" or
`ShadowCaster` is "false" and "BaseCutoutMaterial" otherwise, followed by "TwoSided"
exactly when `TwoSided` is "true". -/
theorem base_material_name (Atof : String → Rat) (CurrentMetadataVersion : Int)
    (materialInfo : MaterialInfo) :
    (CreateUnrealMaterial.isTransparent Atof materialInfo = false ↔
      materialInfo.TransparencyMap.isEmpty = true ∧
        ¬ CreateUnrealMaterial.transparency Atof materialInfo > 0) ∧
    (CreateUnrealMaterial.isTransparent Atof materialInfo = false →
      CreateUnrealMaterial.materialName Atof CurrentMetadataVersion materialInfo =
        "BaseMaterial") ∧
    (1 ≤ CurrentMetadataVersion →
      CreateUnrealMaterial.isTransparent Atof materialInfo = true →
      CreateUnrealMaterial.materialName Atof CurrentMetadataVersion materialInfo =
        (if ¬ materialInfo.DrawQueue = "0" ∨ materialInfo.ShadowCaster = "false" then
          "BaseTransparentMaterial" else "BaseCutoutMaterial") ++
        (if materialInfo.TwoSided = "true" then "TwoSided" else "")) := by
  refine ⟨?_, ?_, ?_⟩
  · simp [CreateUnrealMaterial.isTransparent]
  · intro ht
    simp [CreateUnrealMaterial.materialName, ht]
  · intro hv ht
    have hge : CurrentMetadataVersion ≥ 1 := hv
    by_cases h2 : materialInfo.TwoSided = "true" <;>
      by_cases hq : ¬ materialInfo.DrawQueue = "0" ∨ materialInfo.ShadowCaster = "false" <;>
      simp only [CreateUnrealMaterial.materialName, hge, ht, h2, hq, if_true, if_false] <;>
      decide

theorem base_material_name_witness :
    CreateUnrealMaterial.isTransparent (fun x => if x = "1" then 1 else 0)
        ⟨"Glass", "", "", "", "", "", "", "", "1", "", "", "", "", "true", "1", "true",
          ""⟩ = true ∧
      CreateUnrealMaterial.materialName (fun x => if x = "1" then 1 else 0) 1
        ⟨"Glass", "", "", "", "", "", "", "", "1", "", "", "", "", "true", "1", "true",
          ""⟩ = "BaseTransparentMaterialTwoSided" ∧
      CreateUnrealMaterial.isTransparent (fun x => if x = "1" then 1 else 0)
        ⟨"Asphalt", "", "", "", "", "", "", "", "", "", "", "", "", "false", "0", "true",
          ""⟩ = false ∧
      CreateUnrealMaterial.materialName (fun x => if x = "1" then 1 else 0) 0
        ⟨"Asphalt", "", "", "", "", "", "", "", "", "", "", "", "", "false", "0", "true",
          ""⟩ = "BaseMaterial" := by
  refine ⟨by decide, ?_, by decide, ?_⟩
  · rw [(base_material_name (fun x => if x = "1" then 1 else 0) 1 _).2.2 (by decide)
      (by decide)]
    decide
  · exact (base_material_name (fun x => if x = "1" then 1 else 0) 0 _).2.1 (by decide)

end RoadRunnerImporter
